import Mathlib

/-!
# sqlite_modern_cpp: the value-marshalling layer of `type_wrapper.h`

A shallow embedding of `hdr/sqlite_modern_cpp/type_wrapper.h`: the capability
registry `has_sqlite_type`, the binder `bind_col_in_db`, the result producer
`store_result_in_db`, and the two extractors `get_col_from_db` /
`get_val_from_db`, over a small model of the SQLite C API they call.

Conventions of the embedding.

* A byte, a 16-bit code unit, and the bit pattern of a `float` / `double` are
  natural numbers; a machine integer is an `Int` together with an explicit
  wrap-around where the C++ code converts between widths.
* A pointer is `Option (List Nat)`: `none` is the null pointer, `some mem` is a
  pointer at whose target exactly the cells `mem` may be read.
* Every engine call that the header makes is recorded: bind functions return
  the list of bind calls issued together with the status, extraction functions
  return the list of accessor calls made together with the outcome.
* A call that the compiler rejects has the outcome `ill_formed`.
* Overload resolution on `result_type<T>` is the match on `HostType`.
-/

namespace sqlite

/-! ## The engine: storage classes, stored values, status codes -/

/-- The five fundamental datatypes of the engine (`SQLITE_INTEGER` = 1,
`SQLITE_FLOAT` = 2, `SQLITE_TEXT` = `SQLITE3_TEXT` = 3, `SQLITE_BLOB` = 4,
`SQLITE_NULL` = 5). -/
inductive StorageClass where
  | Integer
  | Float
  | Text
  | Blob
  | Null
  deriving DecidableEq, Repr

/-- The integer code of a storage class in `sqlite3.h`. -/
def StorageClass.code : StorageClass → Int
  | .Integer => 1
  | .Float => 2
  | .Text => 3
  | .Blob => 4
  | .Null => 5

abbrev SQLITE_INTEGER : StorageClass := .Integer
abbrev SQLITE_FLOAT : StorageClass := .Float
abbrev SQLITE_TEXT : StorageClass := .Text
abbrev SQLITE3_TEXT : StorageClass := .Text
abbrev SQLITE_BLOB : StorageClass := .Blob
abbrev SQLITE_NULL : StorageClass := .Null

/-- The status code `SQLITE_MISMATCH` of `sqlite3.h`. -/
def SQLITE_MISMATCH : Int := 20

/-- The status code `SQLITE_OK` of `sqlite3.h`. -/
def SQLITE_OK : Int := 0

/-- A pointer: `none` is `nullptr`, `some mem` points at the readable cells `mem`. -/
abbrev Ptr := Option (List Nat)

/-- A value as the engine holds it in a column, a bound parameter or a value
handle. Text is kept in the encoding it was supplied in. -/
inductive Value where
  | null
  | integer (v : Int)
  | float (d : Nat)
  | text (s : List Nat)
  | text16 (s : List Nat)
  | blob (b : List Nat)
  deriving DecidableEq, Repr

/-- The storage class that `sqlite3_column_type` / `sqlite3_value_type` reports. -/
def Value.type : Value → StorageClass
  | .null => .Null
  | .integer _ => .Integer
  | .float _ => .Float
  | .text _ => .Text
  | .text16 _ => .Text
  | .blob _ => .Blob

/-- What lies outside `type_wrapper.h`: the conversions the engine applies when
an accessor is used on a value of another storage class, and the C++
conversions between `float` and `double`. Double `+0.0` and float `+0.0` both
have the bit pattern `0`, and narrowing maps the one to the other. -/
structure Env where
  toInt64 : Value → Int
  toDouble : Value → Nat
  toText : Value → List Nat
  toText16 : Value → List Nat
  widen : Nat → Nat
  narrow : Nat → Nat
  narrow_zero : narrow 0 = 0

/-- Conversion of an integer to a signed two-complement type of `w` bits. -/
def wrapSigned (w : Nat) (v : Int) : Int :=
  if w = 0 then 0 else (v + 2 ^ (w - 1)) % 2 ^ w - 2 ^ (w - 1)

/-- Conversion of an integer to an unsigned type of `w` bits. -/
def wrapUnsigned (w : Nat) (v : Int) : Int :=
  v % 2 ^ w

/-- The C++ conversion `static_cast<sqlite3_int64>(val)`. -/
def to_sqlite3_int64 (val : Int) : Int :=
  wrapSigned 64 val

/-- The C++ conversion of a `sqlite3_int64` to an integral type of the given
signedness and width. -/
def to_integral (signed : Bool) (bits : Nat) (v : Int) : Int :=
  if signed then wrapSigned bits v else wrapUnsigned bits v

/-- The C++ conversion of a `bool` to an integer type. -/
def bool_to_int (b : Bool) : Int :=
  if b then 1 else 0

/-- The C++ conversion of an integer to `bool`. -/
def int_to_bool (v : Int) : Bool :=
  v != 0

/-- The values of an integral type of the given signedness and width. -/
def InRange (signed : Bool) (bits : Nat) (x : Int) : Prop :=
  if signed then -(2 ^ (bits - 1)) ≤ x ∧ x < 2 ^ (bits - 1) else 0 ≤ x ∧ x < 2 ^ bits

instance (signed : Bool) (bits : Nat) (x : Int) : Decidable (InRange signed bits x) := by
  unfold InRange
  split <;> infer_instance

/-! ### Accessors of the engine on a held value

`sqlite3_column_X(stmt, i)` and `sqlite3_value_X(v)` answer from the value
alone; on a value of the accessor's own class they return what is stored, on
`NULL` they return `0` or the null pointer, otherwise the engine converts. -/

/-- Answer of `sqlite3_column_int64` / `sqlite3_value_int64`. -/
def Value.asInt64 (E : Env) : Value → Int
  | .integer v => v
  | .null => 0
  | v => E.toInt64 v

/-- Answer of `sqlite3_column_int` / `sqlite3_value_int`: the low 32 bits of
the 64-bit answer. -/
def Value.asInt (E : Env) (v : Value) : Int :=
  wrapSigned 32 (v.asInt64 E)

/-- Answer of `sqlite3_column_double` / `sqlite3_value_double`. -/
def Value.asDouble (E : Env) : Value → Nat
  | .float d => d
  | .null => 0
  | v => E.toDouble v

/-- The UTF-8 bytes the engine exposes for a value (without terminator). -/
def Value.utf8 (E : Env) : Value → List Nat
  | .text s => s
  | .blob b => b
  | .null => []
  | v => E.toText v

/-- The UTF-16 code units the engine exposes for a value (without terminator). -/
def Value.utf16 (E : Env) : Value → List Nat
  | .text16 s => s
  | .null => []
  | v => E.toText16 v

/-- Answer of `sqlite3_column_text` / `sqlite3_value_text`: a zero-terminated
buffer, or the null pointer for `NULL`. -/
def Value.asText (E : Env) : Value → Ptr
  | .null => none
  | v => some (v.utf8 E ++ [0])

/-- Answer of `sqlite3_column_bytes` / `sqlite3_value_bytes`: the length in
bytes, terminator not counted. -/
def Value.asBytes (E : Env) (v : Value) : Int :=
  ((v.utf8 E).length : Int)

/-- Answer of `sqlite3_column_text16` / `sqlite3_value_text16`: a buffer of
code units ended by a zero code unit, or the null pointer for `NULL`. -/
def Value.asText16 (E : Env) : Value → Ptr
  | .null => none
  | v => some (v.utf16 E ++ [0])

/-- Answer of `sqlite3_column_bytes16` / `sqlite3_value_bytes16`: the length
in bytes (two per code unit), terminator not counted. -/
def Value.asBytes16 (E : Env) (v : Value) : Int :=
  2 * ((v.utf16 E).length : Int)

/-- Answer of `sqlite3_column_blob` / `sqlite3_value_blob`: the null pointer
for `NULL` and for a zero-length blob. -/
def Value.asBlob (E : Env) (v : Value) : Ptr :=
  if v.utf8 E = [] then none else some (v.utf8 E)

/-! ### Bind calls -/

/-- A call of one of the `sqlite3_bind_*` functions with its arguments (the
statement apart; the destructor argument is always `SQLITE_TRANSIENT`). -/
inductive BindCall where
  | sqlite3_bind_int (inx : Int) (val : Int)
  | sqlite3_bind_int64 (inx : Int) (val : Int)
  | sqlite3_bind_double (inx : Int) (val : Nat)
  | sqlite3_bind_null (inx : Int)
  | sqlite3_bind_text (inx : Int) (data : Ptr) (n : Int)
  | sqlite3_bind_text16 (inx : Int) (data : Ptr) (n : Int)
  | sqlite3_bind_blob (inx : Int) (data : Ptr) (n : Int)
  deriving DecidableEq, Repr

/-- The value a parameter holds after the bind call succeeded, as the SQLite
documentation of `sqlite3_bind_*` gives it; `none` where the documentation
leaves the behaviour undefined (negative blob length, a read past the buffer).

* text with a negative length: the bytes up to the first zero terminator;
* text with a non-negative length: exactly that many bytes;
* text16: the same, the length counted in bytes;
* a null data pointer for text or blob: the same as `sqlite3_bind_null`. -/
def BindCall.stored : BindCall → Option Value
  | .sqlite3_bind_int _ val => some (.integer val)
  | .sqlite3_bind_int64 _ val => some (.integer val)
  | .sqlite3_bind_double _ val => some (.float val)
  | .sqlite3_bind_null _ => some .null
  | .sqlite3_bind_text _ none _ => some .null
  | .sqlite3_bind_text _ (some mem) n =>
      if n < 0 then
        (if 0 ∈ mem then some (.text (mem.takeWhile (fun b => b != 0))) else none)
      else
        (if n.toNat ≤ mem.length then some (.text (mem.take n.toNat)) else none)
  | .sqlite3_bind_text16 _ none _ => some .null
  | .sqlite3_bind_text16 _ (some mem) n =>
      if n < 0 then
        (if 0 ∈ mem then some (.text16 (mem.takeWhile (fun b => b != 0))) else none)
      else
        (if n.toNat / 2 ≤ mem.length then some (.text16 (mem.take (n.toNat / 2))) else none)
  | .sqlite3_bind_blob _ none _ => some .null
  | .sqlite3_bind_blob _ (some mem) n =>
      if n < 0 then none
      else (if n.toNat ≤ mem.length then some (.blob (mem.take n.toNat)) else none)

/-- A prepared statement as this layer sees it: the status the engine answers
to each bind call, and the row the cursor is positioned at. -/
structure sqlite3_stmt where
  respond : BindCall → Int
  row : List Value

/-- A detached value handle. -/
abbrev sqlite3_value := Value

/-- The value in column `inx` (0-based) of the current row; out of range reads as `NULL`. -/
def sqlite3_stmt.column (stmt : sqlite3_stmt) (inx : Int) : Value :=
  if inx < 0 then .null else stmt.row.getD inx.toNat .null

/-- The bind calls issued on a statement, in order, and the status returned. -/
structure BindResult where
  calls : List BindCall
  status : Int
  deriving DecidableEq, Repr

/-- Issue one bind call and return the engine status. -/
def sqlite3_stmt.issue (stmt : sqlite3_stmt) (c : BindCall) : BindResult :=
  ⟨[c], stmt.respond c⟩

def sqlite3_bind_int (stmt : sqlite3_stmt) (inx : Int) (val : Int) : BindResult :=
  stmt.issue (.sqlite3_bind_int inx val)

def sqlite3_bind_int64 (stmt : sqlite3_stmt) (inx : Int) (val : Int) : BindResult :=
  stmt.issue (.sqlite3_bind_int64 inx val)

def sqlite3_bind_double (stmt : sqlite3_stmt) (inx : Int) (val : Nat) : BindResult :=
  stmt.issue (.sqlite3_bind_double inx val)

def sqlite3_bind_null (stmt : sqlite3_stmt) (inx : Int) : BindResult :=
  stmt.issue (.sqlite3_bind_null inx)

def sqlite3_bind_text (stmt : sqlite3_stmt) (inx : Int) (data : Ptr) (n : Int) : BindResult :=
  stmt.issue (.sqlite3_bind_text inx data n)

def sqlite3_bind_text16 (stmt : sqlite3_stmt) (inx : Int) (data : Ptr) (n : Int) : BindResult :=
  stmt.issue (.sqlite3_bind_text16 inx data n)

def sqlite3_bind_blob (stmt : sqlite3_stmt) (inx : Int) (data : Ptr) (n : Int) : BindResult :=
  stmt.issue (.sqlite3_bind_blob inx data n)

/-! ## Host types and their values -/

/-- The host types the header registers. `integral signed bits` is any integral
type other than `int`, `sqlite_int64` and `bool` (it takes the generic
"other integer types" bodies); `vector sizeofT` is `std::vector<T, A>` for an
element type of `sizeof(T) = sizeofT`. -/
inductive HostType where
  | int
  | sqlite_int64
  | integral (signed : Bool) (bits : Nat)
  | bool
  | float
  | double
  | nullptr_t
  | string
  | u16string
  | vector (sizeofT : Nat)
  | blob_t
  | unique_ptr (T : HostType)
  | optional (T : HostType)
  | variant (Args : List HostType)

/-- A `std::vector<T, A>`: the object representations of its elements, and
whether it owns storage. `data()` of a vector without storage is the null
pointer; only an empty vector can be without storage. -/
structure StdVector where
  elems : List (List Nat)
  allocated : Bool
  deriving DecidableEq, Repr

/-- The result of `vec.size()`. -/
def StdVector.size (vec : StdVector) : Nat :=
  vec.elems.length

/-- The result of `vec.data()`, seen as a pointer to bytes. -/
def StdVector.data (vec : StdVector) : Ptr :=
  if vec.allocated then some vec.elems.flatten else none

/-- A vector value is well formed when it has storage unless it is empty and
every element has the size of the element type. -/
def StdVector.WellFormed (sizeofT : Nat) (vec : StdVector) : Prop :=
  (vec.elems ≠ [] → vec.allocated = true) ∧ ∀ e ∈ vec.elems, e.length = sizeofT

mutual
/-- The values of a host type. -/
def HostType.Val : HostType → Type
  | .int => Int
  | .sqlite_int64 => Int
  | .integral _ _ => Int
  | .bool => Bool
  | .float => Nat
  | .double => Nat
  | .nullptr_t => Unit
  | .string => List Nat
  | .u16string => List Nat
  | .vector _ => StdVector
  | .blob_t => Ptr × Int
  | .unique_ptr T => Option T.Val
  | .optional T => Option T.Val
  | .variant Args => Alt Args
/-- The values of `std::variant<Args...>`: exactly one alternative is held. -/
def Alt : List HostType → Type
  | [] => Empty
  | T :: Args => T.Val ⊕ Alt Args
end

/-- The result of `std::variant::index()`: the position of the held alternative. -/
def Alt.index : (Args : List HostType) → Alt Args → Nat
  | [], v => nomatch (v : Empty)
  | T :: Args, v =>
      match (v : T.Val ⊕ Alt Args) with
      | .inl _ => 0
      | .inr r => Alt.index Args r + 1

/-- The held alternative: its type and its value. -/
def Alt.content : (Args : List HostType) → Alt Args → (T : HostType) × T.Val
  | [], v => nomatch (v : Empty)
  | T :: Args, v =>
      match (v : T.Val ⊕ Alt Args) with
      | .inl x => ⟨T, x⟩
      | .inr r => Alt.content Args r

/-- The data pointer of a `std::string` / `std::u16string`: the characters
followed by the terminator. -/
def c_str (s : List Nat) : Ptr :=
  some (s ++ [0])

/-! ## Capability registry -/

mutual
/-- The trait `has_sqlite_type<T, Type>::value`. -/
def has_sqlite_type : HostType → StorageClass → Bool
  | .int, Ty => Ty == SQLITE_INTEGER
  | .sqlite_int64, Ty => Ty == SQLITE_INTEGER
  | .integral _ _, Ty => Ty == SQLITE_INTEGER
  | .bool, Ty => Ty == SQLITE_INTEGER
  | .float, Ty => Ty == SQLITE_FLOAT
  | .double, Ty => Ty == SQLITE_FLOAT
  | .nullptr_t, Ty => Ty == SQLITE_NULL
  | .string, Ty => Ty == SQLITE3_TEXT
  | .u16string, Ty => Ty == SQLITE3_TEXT
  | .vector _, Ty => Ty == SQLITE_BLOB
  | .blob_t, Ty => Ty == SQLITE_BLOB
  | .unique_ptr T, Ty => Ty == SQLITE_NULL || has_sqlite_type T Ty
  | .optional T, Ty => Ty == SQLITE_NULL || has_sqlite_type T Ty
  | .variant Options, Ty => disjunction Options Ty
/-- The value of `std::disjunction<tag_trait<Options, has_sqlite_type<Options, Type>>...>`. -/
def disjunction : List HostType → StorageClass → Bool
  | [], _ => false
  | T :: Options, Ty => has_sqlite_type T Ty || disjunction Options Ty
end

/-- The trait `is_sqlite_value<T>`. -/
def is_sqlite_value (T : HostType) : Bool :=
  false
  || has_sqlite_type T SQLITE_NULL
  || has_sqlite_type T SQLITE_INTEGER
  || has_sqlite_type T SQLITE_FLOAT
  || has_sqlite_type T SQLITE_TEXT
  || has_sqlite_type T SQLITE_BLOB

/-! ## Ways to end without a result -/

/-- Modelled from the spec: the exception class `errors::mismatch` of
`errors.h`, which is not among the sources at hand. It is constructed from a
message, the SQL text and the engine status code it carries. -/
inductive Exception where
  | mismatch (msg : String) (sql : String) (code : Int)
  deriving DecidableEq, Repr

/-- The status code an exception carries. -/
def Exception.get_code : Exception → Int
  | .mismatch _ _ code => code

/-- The ways a call into this layer can end without a result: a C++ exception
leaves the function; the behaviour is undefined (a read past the end of a
buffer); or overload resolution finds no best candidate for the call or for a
call in a template it instantiates, so that the program is rejected by the
compiler. -/
inductive Failure where
  | thrown (e : Exception)
  | undefined
  | ill_formed
  deriving DecidableEq, Repr

/-! ## Binder -/

/-- Body for `int`. -/
def bind_col_in_db_int (stmt : sqlite3_stmt) (inx : Int) (val : Int) : BindResult :=
  sqlite3_bind_int stmt inx val

/-- Body for `sqlite_int64`. -/
def bind_col_in_db_int64 (stmt : sqlite3_stmt) (inx : Int) (val : Int) : BindResult :=
  sqlite3_bind_int64 stmt inx val

/-- Body for `float`. -/
def bind_col_in_db_float (E : Env) (stmt : sqlite3_stmt) (inx : Int) (val : Nat) : BindResult :=
  sqlite3_bind_double stmt inx (E.widen val)

/-- Body for `double`. -/
def bind_col_in_db_double (stmt : sqlite3_stmt) (inx : Int) (val : Nat) : BindResult :=
  sqlite3_bind_double stmt inx val

/-- Body for `std::nullptr_t`. -/
def bind_col_in_db_nullptr (stmt : sqlite3_stmt) (inx : Int) : BindResult :=
  sqlite3_bind_null stmt inx

/-- Body for `std::string`. -/
def bind_col_in_db_string (stmt : sqlite3_stmt) (inx : Int) (val : List Nat) : BindResult :=
  sqlite3_bind_text stmt inx (c_str val) (-1)

/-- Body for `std::u16string`. -/
def bind_col_in_db_u16string (stmt : sqlite3_stmt) (inx : Int) (val : List Nat) : BindResult :=
  sqlite3_bind_text16 stmt inx (c_str val) (-1)

/-- Body for the other integer types. -/
def bind_col_in_db_integral (stmt : sqlite3_stmt) (inx : Int) (val : Int) : BindResult :=
  bind_col_in_db_int64 stmt inx (to_sqlite3_int64 val)

/-- Body for `std::vector<T, A>`; `int bytes` receives the product converted to `int`. -/
def bind_col_in_db_vector (sizeofT : Nat) (stmt : sqlite3_stmt) (inx : Int) (vec : StdVector) :
    BindResult :=
  let buf := vec.data
  let bytes := wrapSigned 32 ((vec.size * sizeofT : Nat) : Int)
  sqlite3_bind_blob stmt inx buf bytes

/-- Body for `blob_t`. -/
def bind_col_in_db_blob (stmt : sqlite3_stmt) (inx : Int) (blob : Ptr × Int) : BindResult :=
  sqlite3_bind_blob stmt inx blob.1 blob.2

/-- Whether the `bind_col_in_db` overload for the type is among those the
body of the `std::unique_ptr<T>` overload can call. The call
`bind_col_in_db(stmt, inx, *val)` in the body of a template depends on `T`: it
is resolved among the overloads declared above the template (the template
itself included) and those that argument-dependent lookup adds, and the
arguments, a `sqlite3_stmt*`, an `int` and a standard library type, do not
lead that lookup into namespace `sqlite`. The overloads for `optional` and
`std::variant` are declared below the one for `std::unique_ptr`. -/
def bind_declared_for_unique_ptr : HostType → Bool
  | .optional _ => false
  | .variant _ => false
  | _ => true

/-- Whether the `bind_col_in_db` overload for the type is among those the
body of the `optional<T>` overload can call: all but the one for
`std::variant`, which is declared below it. -/
def bind_declared_for_optional : HostType → Bool
  | .variant _ => false
  | _ => true

mutual
/-- The instantiation of `bind_col_in_db` for the type compiles: each nested
call finds an overload for its argument. The generic lambda of the variant
binder is instantiated for every alternative. -/
def bind_compiles : HostType → Bool
  | .unique_ptr T => bind_declared_for_unique_ptr T && bind_compiles T
  | .optional T => bind_declared_for_optional T && bind_compiles T
  | .variant Args => all_bind_compile Args
  | _ => true
/-- The binder compiles for every alternative. -/
def all_bind_compile : List HostType → Bool
  | [] => true
  | T :: Args => bind_compiles T && all_bind_compile Args
end

/-- The outcome of a call of the binder: the bind calls issued with the status
returned, or the failure of the call to compile. -/
abbrev Bind := Except Failure BindResult

mutual
/-- The overload set `bind_col_in_db(stmt, inx, val)`. A composite whose
instantiation does not compile has no behaviour, whatever value it holds. -/
def bind_col_in_db (E : Env) (stmt : sqlite3_stmt) (inx : Int) :
    (T : HostType) → T.Val → Bind
  | .int, val => .ok (bind_col_in_db_int stmt inx val)
  | .sqlite_int64, val => .ok (bind_col_in_db_int64 stmt inx val)
  | .integral _ _, val => .ok (bind_col_in_db_integral stmt inx val)
  | .bool, val => .ok (bind_col_in_db_integral stmt inx (bool_to_int val))
  | .float, val => .ok (bind_col_in_db_float E stmt inx val)
  | .double, val => .ok (bind_col_in_db_double stmt inx val)
  | .nullptr_t, _ => .ok (bind_col_in_db_nullptr stmt inx)
  | .string, val => .ok (bind_col_in_db_string stmt inx val)
  | .u16string, val => .ok (bind_col_in_db_u16string stmt inx val)
  | .vector sizeofT, vec => .ok (bind_col_in_db_vector sizeofT stmt inx vec)
  | .blob_t, blob => .ok (bind_col_in_db_blob stmt inx blob)
  | .unique_ptr T, val =>
      if bind_compiles (.unique_ptr T) then
        match (val : Option T.Val) with
        | some x => bind_col_in_db E stmt inx T x
        | none => .ok (bind_col_in_db_nullptr stmt inx)
      else .error .ill_formed
  | .optional T, val =>
      if bind_compiles (.optional T) then
        match (val : Option T.Val) with
        | some x => bind_col_in_db E stmt inx T x
        | none => .ok (bind_col_in_db_nullptr stmt inx)
      else .error .ill_formed
  | .variant Args, val =>
      if bind_compiles (.variant Args) then bind_col_in_db_visit E stmt inx Args val
      else .error .ill_formed
/-- The `std::visit` of the variant binder: the binder of the held alternative. -/
def bind_col_in_db_visit (E : Env) (stmt : sqlite3_stmt) (inx : Int) :
    (Args : List HostType) → Alt Args → Bind
  | [], v => nomatch (v : Empty)
  | T :: Args, v =>
      match (v : T.Val ⊕ Alt Args) with
      | .inl opt => bind_col_in_db E stmt inx T opt
      | .inr rest => bind_col_in_db_visit E stmt inx Args rest
end

/-! ## Outcomes of an extraction -/

/-- The accessor families of the engine. -/
inductive Accessor where
  | type
  | int
  | int64
  | double
  | text
  | bytes
  | text16
  | bytes16
  | blob
  deriving DecidableEq, Repr

/-- One accessor call: `sqlite3_column_X(stmt, inx)` or `sqlite3_value_X(value)`. -/
inductive Access where
  | column (f : Accessor) (inx : Int)
  | value (f : Accessor)
  deriving DecidableEq, Repr

/-- The accessor calls made, in order, and the outcome. -/
structure Read (α : Type) where
  log : List Access
  result : Except Failure α

/-- Return a value without touching the engine. -/
def Read.pure {α : Type} (a : α) : Read α :=
  ⟨[], .ok a⟩

/-- End without a value. -/
def Read.fail {α : Type} (f : Failure) : Read α :=
  ⟨[], .error f⟩

/-- Sequencing: the second computation runs only when the first gave a value. -/
def Read.bind {α β : Type} (x : Read α) (f : α → Read β) : Read β :=
  match x.result with
  | .ok a => ⟨x.log ++ (f a).log, (f a).result⟩
  | .error e => ⟨x.log, .error e⟩

/-- Apply a pure conversion to the value. -/
def Read.map {α β : Type} (f : α → β) (x : Read α) : Read β :=
  match x.result with
  | .ok a => ⟨x.log, .ok (f a)⟩
  | .error e => ⟨x.log, .error e⟩

/-! ### The accessor functions of the C API -/

def sqlite3_column_type (stmt : sqlite3_stmt) (inx : Int) : Read StorageClass :=
  ⟨[.column .type inx], .ok (stmt.column inx).type⟩

def sqlite3_column_int (E : Env) (stmt : sqlite3_stmt) (inx : Int) : Read Int :=
  ⟨[.column .int inx], .ok ((stmt.column inx).asInt E)⟩

def sqlite3_column_int64 (E : Env) (stmt : sqlite3_stmt) (inx : Int) : Read Int :=
  ⟨[.column .int64 inx], .ok ((stmt.column inx).asInt64 E)⟩

def sqlite3_column_double (E : Env) (stmt : sqlite3_stmt) (inx : Int) : Read Nat :=
  ⟨[.column .double inx], .ok ((stmt.column inx).asDouble E)⟩

def sqlite3_column_text (E : Env) (stmt : sqlite3_stmt) (inx : Int) : Read Ptr :=
  ⟨[.column .text inx], .ok ((stmt.column inx).asText E)⟩

def sqlite3_column_bytes (E : Env) (stmt : sqlite3_stmt) (inx : Int) : Read Int :=
  ⟨[.column .bytes inx], .ok ((stmt.column inx).asBytes E)⟩

def sqlite3_column_text16 (E : Env) (stmt : sqlite3_stmt) (inx : Int) : Read Ptr :=
  ⟨[.column .text16 inx], .ok ((stmt.column inx).asText16 E)⟩

def sqlite3_column_bytes16 (E : Env) (stmt : sqlite3_stmt) (inx : Int) : Read Int :=
  ⟨[.column .bytes16 inx], .ok ((stmt.column inx).asBytes16 E)⟩

def sqlite3_column_blob (E : Env) (stmt : sqlite3_stmt) (inx : Int) : Read Ptr :=
  ⟨[.column .blob inx], .ok ((stmt.column inx).asBlob E)⟩

def sqlite3_value_type (value : sqlite3_value) : Read StorageClass :=
  ⟨[.value .type], .ok value.type⟩

def sqlite3_value_int (E : Env) (value : sqlite3_value) : Read Int :=
  ⟨[.value .int], .ok (value.asInt E)⟩

def sqlite3_value_int64 (E : Env) (value : sqlite3_value) : Read Int :=
  ⟨[.value .int64], .ok (value.asInt64 E)⟩

def sqlite3_value_double (E : Env) (value : sqlite3_value) : Read Nat :=
  ⟨[.value .double], .ok (value.asDouble E)⟩

def sqlite3_value_text (E : Env) (value : sqlite3_value) : Read Ptr :=
  ⟨[.value .text], .ok (value.asText E)⟩

def sqlite3_value_bytes (E : Env) (value : sqlite3_value) : Read Int :=
  ⟨[.value .bytes], .ok (value.asBytes E)⟩

def sqlite3_value_text16 (E : Env) (value : sqlite3_value) : Read Ptr :=
  ⟨[.value .text16], .ok (value.asText16 E)⟩

def sqlite3_value_bytes16 (E : Env) (value : sqlite3_value) : Read Int :=
  ⟨[.value .bytes16], .ok (value.asBytes16 E)⟩

def sqlite3_value_blob (E : Env) (value : sqlite3_value) : Read Ptr :=
  ⟨[.value .blob], .ok (value.asBlob E)⟩

/-! ### Constructors of the C++ standard library that read through a pointer -/

/-- The constructor `std::basic_string(const CharT* s, size_type count)`: the
first `count` cells at `s`. Reading more cells than the buffer has is
undefined, as is a negative `count` handed in as an `int`. -/
def basic_string (s : Ptr) (count : Int) : Read (List Nat) :=
  if count < 0 then .fail .undefined
  else
    match s with
    | none => if count = 0 then .pure [] else .fail .undefined
    | some mem => if count.toNat ≤ mem.length then .pure (mem.take count.toNat) else .fail .undefined

/-- Cut `n` consecutive objects of `sizeofT` cells each out of memory. -/
def objects (sizeofT : Nat) : Nat → List Nat → List (List Nat)
  | 0, _ => []
  | n + 1, mem => mem.take sizeofT :: objects sizeofT n (mem.drop sizeofT)

/-- The range constructor `std::vector<T, A>(buf, buf + n)` on a pointer to
objects of `sizeofT` bytes. An empty range allocates nothing. -/
def vector_from_range (sizeofT : Nat) (buf : Ptr) (n : Nat) : Read StdVector :=
  match buf with
  | none => if n = 0 then .pure ⟨[], false⟩ else .fail .undefined
  | some mem =>
      if n * sizeofT ≤ mem.length then .pure ⟨objects sizeofT n mem, decide (n ≠ 0)⟩
      else .fail .undefined

/-! ## Column extractor (`get_col_from_db`) -/

/-- Body for `int`. -/
def get_col_from_db_int (E : Env) (stmt : sqlite3_stmt) (inx : Int) : Read Int :=
  (sqlite3_column_type stmt inx).bind fun type =>
    if type = SQLITE_NULL then .pure 0 else sqlite3_column_int E stmt inx

/-- Body for `sqlite_int64`. -/
def get_col_from_db_int64 (E : Env) (stmt : sqlite3_stmt) (inx : Int) : Read Int :=
  (sqlite3_column_type stmt inx).bind fun type =>
    if type = SQLITE_NULL then .pure 0 else sqlite3_column_int64 E stmt inx

/-- Body for `float`: the conditional has type `double` and is narrowed on return. -/
def get_col_from_db_float (E : Env) (stmt : sqlite3_stmt) (inx : Int) : Read Nat :=
  Read.map E.narrow
    ((sqlite3_column_type stmt inx).bind fun type =>
      if type = SQLITE_NULL then .pure 0 else sqlite3_column_double E stmt inx)

/-- Body for `double`. -/
def get_col_from_db_double (E : Env) (stmt : sqlite3_stmt) (inx : Int) : Read Nat :=
  (sqlite3_column_type stmt inx).bind fun type =>
    if type = SQLITE_NULL then .pure 0 else sqlite3_column_double E stmt inx

/-- Body for `std::string`. -/
def get_col_from_db_string (E : Env) (stmt : sqlite3_stmt) (inx : Int) : Read (List Nat) :=
  (sqlite3_column_type stmt inx).bind fun type =>
    if type = SQLITE_NULL then .pure []
    else
      (sqlite3_column_text E stmt inx).bind fun text =>
      (sqlite3_column_bytes E stmt inx).bind fun bytes =>
      basic_string text bytes

/-- Body for `std::u16string`. -/
def get_col_from_db_u16string (E : Env) (stmt : sqlite3_stmt) (inx : Int) : Read (List Nat) :=
  (sqlite3_column_type stmt inx).bind fun type =>
    if type = SQLITE_NULL then .pure []
    else
      (sqlite3_column_text16 E stmt inx).bind fun text16 =>
      (sqlite3_column_bytes16 E stmt inx).bind fun bytes16 =>
      basic_string text16 bytes16

/-- Body for the other integer types: the `sqlite3_int64` body, converted on return. -/
def get_col_from_db_integral (signed : Bool) (bits : Nat) (E : Env) (stmt : sqlite3_stmt)
    (inx : Int) : Read Int :=
  Read.map (to_integral signed bits) (get_col_from_db_int64 E stmt inx)

/-- Body for `bool`, which is an integral type: the `sqlite3_int64` body,
converted on return. -/
def get_col_from_db_bool (E : Env) (stmt : sqlite3_stmt) (inx : Int) : Read Bool :=
  Read.map int_to_bool (get_col_from_db_int64 E stmt inx)

/-- Body for `std::vector<T, A>`. -/
def get_col_from_db_vector (sizeofT : Nat) (E : Env) (stmt : sqlite3_stmt) (inx : Int) :
    Read StdVector :=
  (sqlite3_column_type stmt inx).bind fun type =>
    if type = SQLITE_NULL then .pure ⟨[], false⟩
    else
      (sqlite3_column_bytes E stmt inx).bind fun bytes =>
      (sqlite3_column_blob E stmt inx).bind fun buf =>
      vector_from_range sizeofT buf (bytes.toNat / sizeofT)

/-- Body for `blob_t`. -/
def get_col_from_db_blob (E : Env) (stmt : sqlite3_stmt) (inx : Int) : Read (Ptr × Int) :=
  (sqlite3_column_type stmt inx).bind fun type =>
    if type = SQLITE_NULL then .pure (none, 0)
    else
      (sqlite3_column_bytes E stmt inx).bind fun bytes =>
      (sqlite3_column_blob E stmt inx).bind fun blob =>
      .pure (blob, bytes)

mutual
/-- The overload set `get_col_from_db(stmt, inx, result_type<T>)`. There is no
overload for `std::nullptr_t`: a `result_type<std::nullptr_t>` converts to the
parameter of each non-template overload alike, so the call is ambiguous. -/
def get_col_from_db (E : Env) (stmt : sqlite3_stmt) (inx : Int) : (T : HostType) → Read T.Val
  | .int => get_col_from_db_int E stmt inx
  | .sqlite_int64 => get_col_from_db_int64 E stmt inx
  | .integral signed bits => get_col_from_db_integral signed bits E stmt inx
  | .bool => get_col_from_db_bool E stmt inx
  | .float => get_col_from_db_float E stmt inx
  | .double => get_col_from_db_double E stmt inx
  | .nullptr_t => .fail .ill_formed
  | .string => get_col_from_db_string E stmt inx
  | .u16string => get_col_from_db_u16string E stmt inx
  | .vector sizeofT => get_col_from_db_vector sizeofT E stmt inx
  | .blob_t => get_col_from_db_blob E stmt inx
  | .unique_ptr T =>
      (sqlite3_column_type stmt inx).bind fun type =>
        if type = SQLITE_NULL then .pure (none : Option T.Val)
        else Read.map (fun x => (some x : Option T.Val)) (get_col_from_db E stmt inx T)
  | .optional T =>
      (sqlite3_column_type stmt inx).bind fun type =>
        if type = SQLITE_NULL then .pure (none : Option T.Val)
        else Read.map (fun x => (some x : Option T.Val)) (get_col_from_db E stmt inx T)
  | .variant Args =>
      (sqlite3_column_type stmt inx).bind fun type =>
        match type with
        | .Null => variant_select_type_col E stmt inx SQLITE_NULL Args
        | .Integer => variant_select_type_col E stmt inx SQLITE_INTEGER Args
        | .Float => variant_select_type_col E stmt inx SQLITE_FLOAT Args
        | .Text => variant_select_type_col E stmt inx SQLITE_TEXT Args
        | .Blob => variant_select_type_col E stmt inx SQLITE_BLOB Args
/-- The function `detail::variant_select_type<Type, Options...>` applied to the
callback of `get_col_from_db` (the `switch` of `detail::variant_select` is the
match on the storage class in the variant case above). `std::disjunction` over the tagged traits derives from the
first option whose `has_sqlite_type<Option, Type>` is true, so
`first_compatible::tag` is that option; the callback extracts it from the
row cursor and constructs the variant holding it. When no option is compatible
`first_compatible::value` is false and `errors::mismatch` is thrown. -/
def variant_select_type_col (E : Env) (stmt : sqlite3_stmt) (inx : Int) (Ty : StorageClass) :
    (Options : List HostType) → Read (Alt Options)
  | [] =>
      .fail (.thrown (.mismatch "The value is unsupported by this variant." "" SQLITE_MISMATCH))
  | T :: Options =>
      if has_sqlite_type T Ty then
        Read.map (fun x => (Sum.inl x : T.Val ⊕ Alt Options)) (get_col_from_db E stmt inx T)
      else
        Read.map (fun r => (Sum.inr r : T.Val ⊕ Alt Options))
          (variant_select_type_col E stmt inx Ty Options)
end

/-! ## Value extractor (`get_val_from_db`) -/

/-- Body for `int`. -/
def get_val_from_db_int (E : Env) (value : sqlite3_value) : Read Int :=
  (sqlite3_value_type value).bind fun type =>
    if type = SQLITE_NULL then .pure 0 else sqlite3_value_int E value

/-- Body for `sqlite_int64`. -/
def get_val_from_db_int64 (E : Env) (value : sqlite3_value) : Read Int :=
  (sqlite3_value_type value).bind fun type =>
    if type = SQLITE_NULL then .pure 0 else sqlite3_value_int64 E value

/-- Body for `float`: the conditional has type `double` and is narrowed on return. -/
def get_val_from_db_float (E : Env) (value : sqlite3_value) : Read Nat :=
  Read.map E.narrow
    ((sqlite3_value_type value).bind fun type =>
      if type = SQLITE_NULL then .pure 0 else sqlite3_value_double E value)

/-- Body for `double`. -/
def get_val_from_db_double (E : Env) (value : sqlite3_value) : Read Nat :=
  (sqlite3_value_type value).bind fun type =>
    if type = SQLITE_NULL then .pure 0 else sqlite3_value_double E value

/-- Body for `std::string`. -/
def get_val_from_db_string (E : Env) (value : sqlite3_value) : Read (List Nat) :=
  (sqlite3_value_type value).bind fun type =>
    if type = SQLITE_NULL then .pure []
    else
      (sqlite3_value_text E value).bind fun text =>
      (sqlite3_value_bytes E value).bind fun bytes =>
      basic_string text bytes

/-- Body for `std::u16string`. -/
def get_val_from_db_u16string (E : Env) (value : sqlite3_value) : Read (List Nat) :=
  (sqlite3_value_type value).bind fun type =>
    if type = SQLITE_NULL then .pure []
    else
      (sqlite3_value_text16 E value).bind fun text16 =>
      (sqlite3_value_bytes16 E value).bind fun bytes16 =>
      basic_string text16 bytes16

/-- Body for the other integer types: the `sqlite3_int64` body, converted on return. -/
def get_val_from_db_integral (signed : Bool) (bits : Nat) (E : Env) (value : sqlite3_value) : Read Int :=
  Read.map (to_integral signed bits) (get_val_from_db_int64 E value)

/-- Body for `bool`, which is an integral type: the `sqlite3_int64` body,
converted on return. -/
def get_val_from_db_bool (E : Env) (value : sqlite3_value) : Read Bool :=
  Read.map int_to_bool (get_val_from_db_int64 E value)

/-- Body for `std::vector<T, A>`. -/
def get_val_from_db_vector (sizeofT : Nat) (E : Env) (value : sqlite3_value) : Read StdVector :=
  (sqlite3_value_type value).bind fun type =>
    if type = SQLITE_NULL then .pure ⟨[], false⟩
    else
      (sqlite3_value_bytes E value).bind fun bytes =>
      (sqlite3_value_blob E value).bind fun buf =>
      vector_from_range sizeofT buf (bytes.toNat / sizeofT)

/-- Body for `blob_t`. -/
def get_val_from_db_blob (E : Env) (value : sqlite3_value) : Read (Ptr × Int) :=
  (sqlite3_value_type value).bind fun type =>
    if type = SQLITE_NULL then .pure (none, 0)
    else
      (sqlite3_value_bytes E value).bind fun bytes =>
      (sqlite3_value_blob E value).bind fun blob =>
      .pure (blob, bytes)

mutual
/-- The overload set `get_val_from_db(value, result_type<T>)`. There is no
overload for `std::nullptr_t`: a `result_type<std::nullptr_t>` converts to the
parameter of each non-template overload alike, so the call is ambiguous. -/
def get_val_from_db (E : Env) (value : sqlite3_value) : (T : HostType) → Read T.Val
  | .int => get_val_from_db_int E value
  | .sqlite_int64 => get_val_from_db_int64 E value
  | .integral signed bits => get_val_from_db_integral signed bits E value
  | .bool => get_val_from_db_bool E value
  | .float => get_val_from_db_float E value
  | .double => get_val_from_db_double E value
  | .nullptr_t => .fail .ill_formed
  | .string => get_val_from_db_string E value
  | .u16string => get_val_from_db_u16string E value
  | .vector sizeofT => get_val_from_db_vector sizeofT E value
  | .blob_t => get_val_from_db_blob E value
  | .unique_ptr T =>
      (sqlite3_value_type value).bind fun type =>
        if type = SQLITE_NULL then .pure (none : Option T.Val)
        else Read.map (fun x => (some x : Option T.Val)) (get_val_from_db E value T)
  | .optional T =>
      (sqlite3_value_type value).bind fun type =>
        if type = SQLITE_NULL then .pure (none : Option T.Val)
        else Read.map (fun x => (some x : Option T.Val)) (get_val_from_db E value T)
  | .variant Args =>
      (sqlite3_value_type value).bind fun type =>
        match type with
        | .Null => variant_select_type_val E value SQLITE_NULL Args
        | .Integer => variant_select_type_val E value SQLITE_INTEGER Args
        | .Float => variant_select_type_val E value SQLITE_FLOAT Args
        | .Text => variant_select_type_val E value SQLITE_TEXT Args
        | .Blob => variant_select_type_val E value SQLITE_BLOB Args
/-- The function `detail::variant_select_type<Type, Options...>` applied to the
callback of `get_val_from_db` (the `switch` of `detail::variant_select` is the
match on the storage class in the variant case above). `std::disjunction` over the tagged traits derives from the
first option whose `has_sqlite_type<Option, Type>` is true, so
`first_compatible::tag` is that option; the callback extracts it from the
value handle and constructs the variant holding it. When no option is compatible
`first_compatible::value` is false and `errors::mismatch` is thrown. -/
def variant_select_type_val (E : Env) (value : sqlite3_value) (Ty : StorageClass) :
    (Options : List HostType) → Read (Alt Options)
  | [] =>
      .fail (.thrown (.mismatch "The value is unsupported by this variant." "" SQLITE_MISMATCH))
  | T :: Options =>
      if has_sqlite_type T Ty then
        Read.map (fun x => (Sum.inl x : T.Val ⊕ Alt Options)) (get_val_from_db E value T)
      else
        Read.map (fun r => (Sum.inr r : T.Val ⊕ Alt Options))
          (variant_select_type_val E value Ty Options)
end

/-! ## Concrete engine data used to evaluate the definitions -/

/-- An environment whose conversions are trivial: every cross-class conversion
answers zero or empty, and `float` and `double` share their bit patterns. -/
def Env.sample : Env where
  toInt64 := fun _ => 0
  toDouble := fun _ => 0
  toText := fun _ => []
  toText16 := fun _ => []
  widen := id
  narrow := id
  narrow_zero := rfl

/-- A statement that answers `SQLITE_OK` to every bind call and is positioned
at the given row. -/
def sqlite3_stmt.sample (row : List Value) : sqlite3_stmt :=
  ⟨fun _ => SQLITE_OK, row⟩

/-! ## Notions used to state the properties -/

/-- The bytes (or code units) of `s` before its first zero, all of `s` when it has none. -/
def before_nul (s : List Nat) : List Nat :=
  s.takeWhile (fun b => b != 0)

/-- The result the Null-coalescing policy prescribes for a value of storage
class Null: zero for the numeric scalars, the empty string, the empty
sequence, `(nullptr, 0)` for the raw buffer, the empty optional and the null
owning pointer. The policy does not speak about `std::nullptr_t` and
`std::variant`. -/
def null_coalesced : (T : HostType) → Option T.Val
  | .int => some (0 : Int)
  | .sqlite_int64 => some (0 : Int)
  | .integral _ _ => some (0 : Int)
  | .bool => some false
  | .float => some (0 : Nat)
  | .double => some (0 : Nat)
  | .nullptr_t => none
  | .string => some ([] : List Nat)
  | .u16string => some ([] : List Nat)
  | .vector _ => some (⟨[], false⟩ : StdVector)
  | .blob_t => some ((none, 0) : Ptr × Int)
  | .unique_ptr T => some (none : Option T.Val)
  | .optional T => some (none : Option T.Val)
  | .variant _ => none

/-- The exception thrown by `detail::variant_select_type` when no option is compatible. -/
def variant_mismatch : Exception :=
  .mismatch "The value is unsupported by this variant." "" SQLITE_MISMATCH

/-- The parameter index a bind call was issued on. -/
def BindCall.inx : BindCall → Int
  | .sqlite3_bind_int inx _ => inx
  | .sqlite3_bind_int64 inx _ => inx
  | .sqlite3_bind_double inx _ => inx
  | .sqlite3_bind_null inx => inx
  | .sqlite3_bind_text inx _ _ => inx
  | .sqlite3_bind_text16 inx _ _ => inx
  | .sqlite3_bind_blob inx _ _ => inx

/-- The column accessor call that corresponds to a value accessor call. -/
def Access.at_column (inx : Int) : Access → Access
  | .value f => .column f inx
  | .column f i => .column f i

/-- The same computation with every value accessor call read as the column
accessor call on column `inx`. -/
def Read.at_column {α : Type} (inx : Int) (r : Read α) : Read α :=
  ⟨r.log.map (Access.at_column inx), r.result⟩

/-- No `std::variant` occurs in the type, at any depth. -/
def variant_free : HostType → Bool
  | .unique_ptr T => variant_free T
  | .optional T => variant_free T
  | .variant _ => false
  | _ => true

/-- The type is built from the numeric scalars, `std::string`, `std::vector`
and `blob_t` by `optional` and `std::unique_ptr` alone: no `std::variant`
occurs in it, nor `std::nullptr_t` (which has no extraction body), nor
`std::u16string`. -/
def plain_extractable : HostType → Bool
  | .unique_ptr T => plain_extractable T
  | .optional T => plain_extractable T
  | .variant _ => false
  | .nullptr_t => false
  | .u16string => false
  | _ => true

/-! ## Result producer (`store_result_in_db`) -/

/-- A call of one of the `sqlite3_result_*` functions with its arguments (the
context apart; the destructor argument is always `SQLITE_TRANSIENT`). -/
inductive ResultCall where
  | sqlite3_result_int (val : Int)
  | sqlite3_result_int64 (val : Int)
  | sqlite3_result_double (val : Nat)
  | sqlite3_result_null
  | sqlite3_result_text (data : Ptr) (n : Int)
  | sqlite3_result_text16 (data : Ptr) (n : Int)
  | sqlite3_result_blob (data : Ptr) (n : Int)
  deriving DecidableEq, Repr

/-- The bind call with the same value arguments, on parameter `inx`. -/
def ResultCall.as_bind (inx : Int) : ResultCall → BindCall
  | .sqlite3_result_int val => .sqlite3_bind_int inx val
  | .sqlite3_result_int64 val => .sqlite3_bind_int64 inx val
  | .sqlite3_result_double val => .sqlite3_bind_double inx val
  | .sqlite3_result_null => .sqlite3_bind_null inx
  | .sqlite3_result_text data n => .sqlite3_bind_text inx data n
  | .sqlite3_result_text16 data n => .sqlite3_bind_text16 inx data n
  | .sqlite3_result_blob data n => .sqlite3_bind_blob inx data n

/-- The result call with the same value arguments as a bind call. -/
def BindCall.as_result : BindCall → ResultCall
  | .sqlite3_bind_int _ val => .sqlite3_result_int val
  | .sqlite3_bind_int64 _ val => .sqlite3_result_int64 val
  | .sqlite3_bind_double _ val => .sqlite3_result_double val
  | .sqlite3_bind_null _ => .sqlite3_result_null
  | .sqlite3_bind_text _ data n => .sqlite3_result_text data n
  | .sqlite3_bind_text16 _ data n => .sqlite3_result_text16 data n
  | .sqlite3_bind_blob _ data n => .sqlite3_result_blob data n

/-- The value a function returns to the engine after the result call. The
SQLite documentation gives the `sqlite3_result_*` functions the reading of
their arguments that the `sqlite3_bind_*` functions of the same name have:
text with a negative length runs to the first zero terminator, and a null
data pointer gives `NULL`. -/
def ResultCall.produced (c : ResultCall) : Option Value :=
  (c.as_bind 1).stored

/-- The result calls issued on the function context, in order; the function
returns nothing. A call that the compiler rejects has none. -/
abbrev Produce := Except Failure (List ResultCall)

def sqlite3_result_int (val : Int) : Produce :=
  .ok [.sqlite3_result_int val]

def sqlite3_result_int64 (val : Int) : Produce :=
  .ok [.sqlite3_result_int64 val]

def sqlite3_result_double (val : Nat) : Produce :=
  .ok [.sqlite3_result_double val]

def sqlite3_result_null : Produce :=
  .ok [.sqlite3_result_null]

def sqlite3_result_text (data : Ptr) (n : Int) : Produce :=
  .ok [.sqlite3_result_text data n]

def sqlite3_result_text16 (data : Ptr) (n : Int) : Produce :=
  .ok [.sqlite3_result_text16 data n]

def sqlite3_result_blob (data : Ptr) (n : Int) : Produce :=
  .ok [.sqlite3_result_blob data n]

/-- Body for `int`. -/
def store_result_in_db_int (val : Int) : Produce :=
  sqlite3_result_int val

/-- Body for `sqlite_int64`. -/
def store_result_in_db_int64 (val : Int) : Produce :=
  sqlite3_result_int64 val

/-- Body for `float`: the argument is converted to `double` by the call. -/
def store_result_in_db_float (E : Env) (val : Nat) : Produce :=
  sqlite3_result_double (E.widen val)

/-- Body for `double`. -/
def store_result_in_db_double (val : Nat) : Produce :=
  sqlite3_result_double val

/-- Body for `std::nullptr_t`. -/
def store_result_in_db_nullptr : Produce :=
  sqlite3_result_null

/-- Body for `std::string`. -/
def store_result_in_db_string (val : List Nat) : Produce :=
  sqlite3_result_text (c_str val) (-1)

/-- Body for `std::u16string`. -/
def store_result_in_db_u16string (val : List Nat) : Produce :=
  sqlite3_result_text16 (c_str val) (-1)

/-- Body of the template for the other integer types. Its guard is written
`class = std::enable_if<std::is_integral<Integral>::type>`: the dependent name
`std::is_integral<Integral>::type` stands where a value is required and names
a type, so the substitution of the default argument fails for every
`Integral` and overload resolution never selects this template. -/
def store_result_in_db_integral (val : Int) : Produce :=
  store_result_in_db_int64 (to_sqlite3_int64 val)

/-- Body for `std::vector<T, A>`; `int bytes` receives the product converted to `int`. -/
def store_result_in_db_vector (sizeofT : Nat) (vec : StdVector) : Produce :=
  let buf := vec.data
  let bytes := wrapSigned 32 ((vec.size * sizeofT : Nat) : Int)
  sqlite3_result_blob buf bytes

/-- Body for `blob_t`. -/
def store_result_in_db_blob (blob : Ptr × Int) : Produce :=
  sqlite3_result_blob blob.1 blob.2

/-- Whether integral promotion takes an integral type of the given width to
`int`: the types whose conversion rank is below that of `int` (the character
types wider than 16 bits are not told apart from the integer types of their
width). -/
def promotes_to_int (bits : Nat) : Bool :=
  decide (bits < 32)

/-- Whether the `store_result_in_db` overload for the type is among those the
body of the `optional<T>` overload can call: the call
`store_result_in_db(db, *val)` depends on `T` and is resolved among the
overloads declared above the template (the template itself included), and the
one for `std::variant` is declared below it. -/
def store_result_declared_for_optional : HostType → Bool
  | .variant _ => false
  | _ => true

mutual
/-- The call `store_result_in_db(db, val)` compiles for a value of the type.

* An integral type other than `int` and `sqlite_int64` finds no viable
  template (see `store_result_in_db_integral`) and is left with the
  non-template overloads for `int`, `sqlite_int64`, `float` and `double`: when
  integral promotion takes it to `int`, as for `bool`, the `int` overload is
  the best match; otherwise the four conversions rank alike and the call is
  ambiguous.
* There is no overload for `std::unique_ptr<T>`, and none of the others
  accepts one.
* The generic lambda of the variant producer is instantiated for every
  alternative. -/
def store_result_compiles : HostType → Bool
  | .integral _ bits => promotes_to_int bits
  | .unique_ptr _ => false
  | .optional T => store_result_declared_for_optional T && store_result_compiles T
  | .variant Args => all_store_result_compile Args
  | _ => true
/-- The result producer compiles for every alternative. -/
def all_store_result_compile : List HostType → Bool
  | [] => true
  | T :: Args => store_result_compiles T && all_store_result_compile Args
end

mutual
/-- The overload set `store_result_in_db(db, val)`. A call that does not
compile (see `store_result_compiles`) has no behaviour, whatever value it is
given. -/
def store_result_in_db (E : Env) : (T : HostType) → T.Val → Produce
  | .int, val => store_result_in_db_int val
  | .sqlite_int64, val => store_result_in_db_int64 val
  | .integral _ bits, val =>
      if promotes_to_int bits then store_result_in_db_int val else .error .ill_formed
  | .bool, val => store_result_in_db_int (bool_to_int val)
  | .float, val => store_result_in_db_float E val
  | .double, val => store_result_in_db_double val
  | .nullptr_t, _ => store_result_in_db_nullptr
  | .string, val => store_result_in_db_string val
  | .u16string, val => store_result_in_db_u16string val
  | .vector sizeofT, vec => store_result_in_db_vector sizeofT vec
  | .blob_t, blob => store_result_in_db_blob blob
  | .unique_ptr _, _ => .error .ill_formed
  | .optional T, val =>
      if store_result_compiles (.optional T) then
        match (val : Option T.Val) with
        | some x => store_result_in_db E T x
        | none => sqlite3_result_null
      else .error .ill_formed
  | .variant Args, val =>
      if store_result_compiles (.variant Args) then store_result_in_db_visit E Args val
      else .error .ill_formed
/-- The `std::visit` of the variant result producer: the producer of the held alternative. -/
def store_result_in_db_visit (E : Env) : (Args : List HostType) → Alt Args → Produce
  | [], v => nomatch (v : Empty)
  | T :: Args, v =>
      match (v : T.Val ⊕ Alt Args) with
      | .inl opt => store_result_in_db E T opt
      | .inr rest => store_result_in_db_visit E Args rest
end

mutual
/-- The type has the same per-type body in the result producer as in the
binder, and both compile for it: no `std::unique_ptr` occurs in it, no
integral type other than `int` and `sqlite_int64`, and no `std::variant`
directly under an `optional`. -/
def has_result_body : HostType → Bool
  | .integral _ _ => false
  | .bool => false
  | .unique_ptr _ => false
  | .optional T => store_result_declared_for_optional T && has_result_body T
  | .variant Args => all_have_result_body Args
  | _ => true
/-- Every alternative has the same per-type body in the result producer as in the binder. -/
def all_have_result_body : List HostType → Bool
  | [] => true
  | T :: Args => has_result_body T && all_have_result_body Args
end

mutual
/-- The value hands the binder no null data pointer and no length that the
engine cannot read: a vector owns storage, its elements have the size of the
element type and its byte count fits an `int`; a raw buffer has a non-null
pointer and a length within the buffer. -/
def data_present : (T : HostType) → T.Val → Prop
  | .vector sizeofT, vec =>
      StdVector.allocated vec = true
        ∧ (∀ e ∈ StdVector.elems vec, e.length = sizeofT)
        ∧ ((StdVector.size vec * sizeofT : Nat) : Int) < 2 ^ 31
  | .blob_t, blob =>
      ∃ mem : List Nat, Prod.fst blob = some mem
        ∧ 0 ≤ Prod.snd blob ∧ (Prod.snd blob).toNat ≤ mem.length
  | .unique_ptr T, val =>
      match (val : Option T.Val) with
      | some x => data_present T x
      | none => True
  | .optional T, val =>
      match (val : Option T.Val) with
      | some x => data_present T x
      | none => True
  | .variant Args, val => data_present_alt Args val
  | .int, _ => True
  | .sqlite_int64, _ => True
  | .integral _ _, _ => True
  | .bool, _ => True
  | .float, _ => True
  | .double, _ => True
  | .nullptr_t, _ => True
  | .string, _ => True
  | .u16string, _ => True
/-- The held alternative hands the binder no null data pointer. -/
def data_present_alt : (Args : List HostType) → Alt Args → Prop
  | [], _ => True
  | T :: Args, v =>
      match (v : T.Val ⊕ Alt Args) with
      | .inl x => data_present T x
      | .inr rest => data_present_alt Args rest
end

/-! ## Theorems -/

theorem takeWhile_terminated (s : List Nat) :
    (s ++ [0]).takeWhile (fun b => b != 0) = s.takeWhile (fun b => b != 0) := by
  induction s with
  | nil => simp
  | cons a s ih =>
    rw [List.cons_append, List.takeWhile_cons, List.takeWhile_cons, ih]

theorem takeWhile_no_nul (s : List Nat) (h : 0 ∉ s) :
    s.takeWhile (fun b => b != 0) = s := by
  induction s with
  | nil => rfl
  | cons a s ih =>
    simp only [List.mem_cons, not_or] at h
    have ha : (a != 0) = true := by
      simp only [bne_iff_ne, ne_eq]
      exact fun e => h.1 e.symm
    rw [List.takeWhile_cons, ha, if_pos rfl, ih h.2]

theorem get_col_string_text (E : Env) (cur : sqlite3_stmt) (col : Int) (t : List Nat)
    (h : cur.column col = .text t) :
    get_col_from_db E cur col .string
      = ⟨[.column .type col, .column .text col, .column .bytes col], .ok t⟩ := by
  have hn : ¬ ((t.length : Int) < 0) := by omega
  simp [get_col_from_db, get_col_from_db_string, Read.bind, Read.pure, sqlite3_column_type,
    sqlite3_column_text, sqlite3_column_bytes, h, Value.type, basic_string, Value.asText,
    Value.asBytes, Value.utf8, hn]

/-- C1 (as amended): `bind_col_in_db` for `std::string` issues exactly one
`sqlite3_bind_text` call with the data pointer of `s` and the length argument
`-1` (terminator-based, not the byte length), so the engine stores the bytes
of `s` before its first zero byte; `get_col_from_db` on a column holding that
text returns exactly those bytes, read with the explicit byte length that
`sqlite3_column_bytes` reports. Hence for every `s` without a zero byte the
stored text is `s` and the extraction returns `s`. -/
theorem string_round_trip_up_to_nul (E : Env) (stmt : sqlite3_stmt) (inx : Int) (s : List Nat) :
    bind_col_in_db E stmt inx .string s
        = .ok ⟨[.sqlite3_bind_text inx (c_str s) (-1)],
            stmt.respond (.sqlite3_bind_text inx (c_str s) (-1))⟩
      ∧ (BindCall.sqlite3_bind_text inx (c_str s) (-1)).stored = some (.text (before_nul s))
      ∧ (∀ (cur : sqlite3_stmt) (col : Int), cur.column col = .text (before_nul s) →
          (get_col_from_db E cur col .string).result = .ok (before_nul s))
      ∧ (0 ∉ s →
          (BindCall.sqlite3_bind_text inx (c_str s) (-1)).stored = some (.text s)
          ∧ ∀ (cur : sqlite3_stmt) (col : Int), cur.column col = .text s →
              (get_col_from_db E cur col .string).result = .ok s) := by
  have hst : (BindCall.sqlite3_bind_text inx (c_str s) (-1)).stored
      = some (.text (before_nul s)) := by
    simp [BindCall.stored, c_str, before_nul, takeWhile_terminated]
  refine ⟨?_, hst, ?_, ?_⟩
  · simp [bind_col_in_db, bind_col_in_db_string, sqlite3_bind_text, sqlite3_stmt.issue]
  · intro cur col h
    rw [get_col_string_text E cur col _ h]
  · intro h0
    have hb : before_nul s = s := takeWhile_no_nul s h0
    rw [hb] at hst
    refine ⟨hst, ?_⟩
    intro cur col h
    rw [get_col_string_text E cur col _ h]

/-- Witness for C1: the string "hi" has no zero byte, is stored whole and is
returned whole. -/
theorem string_round_trip_up_to_nul_witness :
    (0 : Nat) ∉ ([104, 105] : List Nat)
      ∧ (get_col_from_db Env.sample (sqlite3_stmt.sample [.text [104, 105]]) 0 .string).result
          = .ok [104, 105] :=
  ⟨by decide,
   ((string_round_trip_up_to_nul Env.sample (sqlite3_stmt.sample []) 1 [104, 105]).2.2.2
      (by decide)).2 (sqlite3_stmt.sample [.text [104, 105]]) 0 rfl⟩

/-- C1, counterexample: for the three-byte string "a\0b" the binder passes the
length argument `-1` and not the byte length 3, the engine stores the single
byte "a", and extracting that column returns "a", which is not the string
that was bound. -/
theorem string_embedded_zero_not_preserved :
    bind_col_in_db Env.sample (sqlite3_stmt.sample []) 1 .string [97, 0, 98]
        = .ok ⟨[.sqlite3_bind_text 1 (some [97, 0, 98, 0]) (-1)], SQLITE_OK⟩
      ∧ (BindCall.sqlite3_bind_text 1 (some [97, 0, 98, 0]) (-1)).stored = some (.text [97])
      ∧ (get_col_from_db Env.sample (sqlite3_stmt.sample [.text [97]]) 0 .string).result
          = .ok [97]
      ∧ ([97] : List Nat) ≠ [97, 0, 98] :=
  ⟨rfl, rfl, rfl, by decide⟩

theorem wrapSigned_emod (w : Nat) (hw : w ≠ 0) (v n : Int) (hn : n ∣ 2 ^ w) :
    wrapSigned w v % n = v % n := by
  unfold wrapSigned
  rw [if_neg hw, Int.sub_emod, Int.emod_emod_of_dvd _ hn, ← Int.sub_emod]
  simp

theorem wrapSigned_of_inRange (w : Nat) (hw : w ≠ 0) (x : Int) (h : InRange true w x) :
    wrapSigned w x = x := by
  unfold InRange at h
  simp only [if_true] at h
  unfold wrapSigned
  rw [if_neg hw]
  have hp : (2 : Int) ^ w = 2 * 2 ^ (w - 1) := by
    rw [← pow_succ']
    congr 1
    omega
  rw [Int.emod_eq_of_lt (by omega) (by omega)]
  omega

theorem get_col_int_integer (E : Env) (cur : sqlite3_stmt) (col : Int) (v : Int)
    (h : cur.column col = .integer v) :
    get_col_from_db E cur col .int
      = ⟨[.column .type col, .column .int col], .ok (wrapSigned 32 v)⟩ := by
  simp [get_col_from_db, get_col_from_db_int, Read.bind, sqlite3_column_type,
    sqlite3_column_int, h, Value.type, Value.asInt, Value.asInt64]

theorem get_col_int64_integer (E : Env) (cur : sqlite3_stmt) (col : Int) (v : Int)
    (h : cur.column col = .integer v) :
    get_col_from_db E cur col .sqlite_int64
      = ⟨[.column .type col, .column .int64 col], .ok v⟩ := by
  simp [get_col_from_db, get_col_from_db_int64, Read.bind, sqlite3_column_type,
    sqlite3_column_int64, h, Value.type, Value.asInt64]

theorem get_col_integral_integer (E : Env) (cur : sqlite3_stmt) (col : Int) (signed : Bool)
    (bits : Nat) (v : Int) (h : cur.column col = .integer v) :
    get_col_from_db E cur col (.integral signed bits)
      = ⟨[.column .type col, .column .int64 col], .ok (to_integral signed bits v)⟩ := by
  simp [get_col_from_db, get_col_from_db_integral, get_col_from_db_int64, Read.bind, Read.map,
    sqlite3_column_type, sqlite3_column_int64, h, Value.type, Value.asInt64]

theorem inRange_signed_mono (b : Nat) (hb : b ≤ 64) (x : Int) (h : InRange true b x) :
    InRange true 64 x := by
  unfold InRange at *
  simp only [if_true] at *
  have hp : (2 : Int) ^ (b - 1) ≤ 2 ^ (64 - 1) :=
    pow_le_pow_right₀ (by norm_num) (by omega)
  constructor <;> omega

theorem to_integral_round_trip (signed : Bool) (bits : Nat) (h1 : 1 ≤ bits) (h64 : bits ≤ 64)
    (x : Int) (h : InRange signed bits x) :
    to_integral signed bits (to_sqlite3_int64 x) = x := by
  unfold to_integral to_sqlite3_int64
  cases signed with
  | true =>
    simp only [if_true]
    rw [wrapSigned_of_inRange 64 (by decide) x (inRange_signed_mono bits h64 x h)]
    exact wrapSigned_of_inRange bits (by omega) x h
  | false =>
    simp only [Bool.false_eq_true, if_false]
    unfold wrapUnsigned
    rw [wrapSigned_emod 64 (by decide) x _ (pow_dvd_pow 2 h64)]
    unfold InRange at h
    simp only [Bool.false_eq_true, if_false] at h
    exact Int.emod_eq_of_lt h.1 h.2

theorem to_sqlite3_int64_high (x : Int) (h : InRange false 64 x) (hx : 2 ^ 63 ≤ x) :
    to_sqlite3_int64 x = x - 2 ^ 64 := by
  unfold InRange at h
  simp only [Bool.false_eq_true, if_false] at h
  unfold to_sqlite3_int64 wrapSigned
  norm_num at h hx ⊢
  omega

/-- C2: integer round trip. For `int`, for `sqlite_int64` and for every other
integral type of 1 to 64 bits, signed or unsigned, and every value `x` of the
type, `bind_col_in_db` issues one integer bind call, the engine stores an
Integer-class value, and `get_col_from_db` for the same type on a column
holding the stored value returns exactly `x`. For an unsigned 64-bit
`x >= 2^63` the stored 64-bit value is `x - 2^64`. -/
theorem integer_round_trip (E : Env) (stmt cur : sqlite3_stmt) (inx col : Int) :
    (∀ x : Int, InRange true 32 x →
        bind_col_in_db E stmt inx .int x
            = .ok ⟨[.sqlite3_bind_int inx x], stmt.respond (.sqlite3_bind_int inx x)⟩
          ∧ (BindCall.sqlite3_bind_int inx x).stored = some (.integer x)
          ∧ (Value.integer x).type = SQLITE_INTEGER
          ∧ (cur.column col = .integer x →
              (get_col_from_db E cur col .int).result = .ok x))
    ∧ (∀ x : Int, InRange true 64 x →
        bind_col_in_db E stmt inx .sqlite_int64 x
            = .ok ⟨[.sqlite3_bind_int64 inx x], stmt.respond (.sqlite3_bind_int64 inx x)⟩
          ∧ (BindCall.sqlite3_bind_int64 inx x).stored = some (.integer x)
          ∧ (Value.integer x).type = SQLITE_INTEGER
          ∧ (cur.column col = .integer x →
              (get_col_from_db E cur col .sqlite_int64).result = .ok x))
    ∧ (∀ (signed : Bool) (bits : Nat) (x : Int), 1 ≤ bits → bits ≤ 64 → InRange signed bits x →
        bind_col_in_db E stmt inx (.integral signed bits) x
            = .ok ⟨[.sqlite3_bind_int64 inx (to_sqlite3_int64 x)],
                stmt.respond (.sqlite3_bind_int64 inx (to_sqlite3_int64 x))⟩
          ∧ (BindCall.sqlite3_bind_int64 inx (to_sqlite3_int64 x)).stored
              = some (.integer (to_sqlite3_int64 x))
          ∧ (Value.integer (to_sqlite3_int64 x)).type = SQLITE_INTEGER
          ∧ (cur.column col = .integer (to_sqlite3_int64 x) →
              (get_col_from_db E cur col (.integral signed bits)).result = .ok x))
    ∧ (∀ x : Int, InRange false 64 x → 2 ^ 63 ≤ x → to_sqlite3_int64 x = x - 2 ^ 64) := by
  refine ⟨?_, ?_, ?_, ?_⟩
  · intro x hx
    refine ⟨?_, rfl, rfl, ?_⟩
    · simp [bind_col_in_db, bind_col_in_db_int, sqlite3_bind_int, sqlite3_stmt.issue]
    · intro h
      rw [get_col_int_integer E cur col x h, wrapSigned_of_inRange 32 (by decide) x hx]
  · intro x _
    refine ⟨?_, rfl, rfl, ?_⟩
    · simp [bind_col_in_db, bind_col_in_db_int64, sqlite3_bind_int64, sqlite3_stmt.issue]
    · intro h
      rw [get_col_int64_integer E cur col x h]
  · intro signed bits x h1 h64 hx
    refine ⟨?_, rfl, rfl, ?_⟩
    · simp [bind_col_in_db, bind_col_in_db_integral, bind_col_in_db_int64, sqlite3_bind_int64,
        sqlite3_stmt.issue]
    · intro h
      rw [get_col_integral_integer E cur col signed bits _ h,
        to_integral_round_trip signed bits h1 h64 x hx]
  · exact to_sqlite3_int64_high

/-- Witness for C2: the unsigned 64-bit value `2^63 + 5` is stored as a
negative 64-bit integer and extracted unchanged. -/
theorem integer_round_trip_witness :
    InRange false 64 ((2 : Int) ^ 63 + 5)
      ∧ (get_col_from_db Env.sample
            (sqlite3_stmt.sample [.integer (to_sqlite3_int64 ((2 : Int) ^ 63 + 5))]) 0
            (.integral false 64)).result = .ok ((2 : Int) ^ 63 + 5) :=
  ⟨by decide,
   ((integer_round_trip Env.sample (sqlite3_stmt.sample [])
      (sqlite3_stmt.sample [.integer (to_sqlite3_int64 ((2 : Int) ^ 63 + 5))]) 1 0).2.2.1
      false 64 ((2 : Int) ^ 63 + 5) (by decide) (by decide) (by decide)).2.2.2 rfl⟩

theorem to_integral_zero (signed : Bool) (bits : Nat) : to_integral signed bits 0 = 0 := by
  unfold to_integral wrapSigned wrapUnsigned
  cases signed with
  | false => simp
  | true =>
    simp only [if_true]
    split
    · rfl
    · rename_i hw
      have hp : (2 : Int) ^ bits = 2 * 2 ^ (bits - 1) := by
        rw [← pow_succ']
        congr 1
        omega
      have hpos : (0 : Int) < 2 ^ (bits - 1) := by positivity
      rw [zero_add, Int.emod_eq_of_lt (by omega) (by omega)]
      omega

/-- C3: Null-coalescing. For a column, and likewise for a value handle, whose
actual storage class is Null, extraction as `int`, `sqlite_int64`, any other
integral type, `bool`, `float` or `double` returns zero, as either string type
returns the empty string, as `std::vector` the empty sequence, as `blob_t`
`(nullptr, 0)`, as `optional<T>` the empty optional and as `unique_ptr<T>` the
null pointer; the only engine call made is the query of the storage class, so
no class-specific accessor (of the type or of the inner type) is called. -/
theorem null_coalescing (E : Env) (T : HostType) (d : T.Val) (hd : null_coalesced T = some d) :
    (∀ (stmt : sqlite3_stmt) (inx : Int), (stmt.column inx).type = SQLITE_NULL →
        get_col_from_db E stmt inx T = ⟨[.column .type inx], .ok d⟩)
    ∧ (∀ value : sqlite3_value, value.type = SQLITE_NULL →
        get_val_from_db E value T = ⟨[.value .type], .ok d⟩) := by
  cases T <;>
    simp only [null_coalesced, Option.some.injEq, reduceCtorEq] at hd <;>
    subst hd <;>
    constructor <;>
    intros <;>
    simp_all [get_col_from_db, get_val_from_db, get_col_from_db_int, get_val_from_db_int,
      get_col_from_db_int64, get_val_from_db_int64, get_col_from_db_integral,
      get_val_from_db_integral, get_col_from_db_bool, get_val_from_db_bool,
      get_col_from_db_float, get_val_from_db_float, get_col_from_db_double,
      get_val_from_db_double, get_col_from_db_string, get_val_from_db_string,
      get_col_from_db_u16string, get_val_from_db_u16string, get_col_from_db_vector,
      get_val_from_db_vector, get_col_from_db_blob, get_val_from_db_blob,
      Read.bind, Read.map, Read.pure, sqlite3_column_type, sqlite3_value_type,
      to_integral_zero, int_to_bool, E.narrow_zero]

/-- Witness for C3: `optional<int>` on a Null column. -/
theorem null_coalescing_witness :
    null_coalesced (.optional .int) = some none
      ∧ (sqlite3_stmt.column (sqlite3_stmt.sample [.null]) 0).type = SQLITE_NULL
      ∧ get_col_from_db Env.sample (sqlite3_stmt.sample [.null]) 0 (.optional .int)
          = ⟨[.column .type 0], .ok none⟩ :=
  ⟨rfl, rfl, (null_coalescing Env.sample (.optional .int) none rfl).1
    (sqlite3_stmt.sample [.null]) 0 rfl⟩

theorem Read.map_map {α β γ : Type} (g : β → γ) (f : α → β) (x : Read α) :
    Read.map g (Read.map f x) = Read.map (fun a => g (f a)) x := by
  unfold Read.map
  cases h : x.result <;> simp

theorem Read.map_eq {α β : Type} (f : α → β) (x : Read α) :
    Read.map f x = ⟨x.log, x.result.map f⟩ := by
  unfold Read.map
  cases h : x.result <;> simp [Except.map]

theorem Read.bind_type_col {β : Type} (stmt : sqlite3_stmt) (inx : Int) (f : StorageClass → Read β) :
    (sqlite3_column_type stmt inx).bind f
      = ⟨.column .type inx :: (f (stmt.column inx).type).log, (f (stmt.column inx).type).result⟩ := by
  simp [Read.bind, sqlite3_column_type]

theorem Read.bind_type_val {β : Type} (value : sqlite3_value) (f : StorageClass → Read β) :
    (sqlite3_value_type value).bind f
      = ⟨.value .type :: (f value.type).log, (f value.type).result⟩ := by
  simp [Read.bind, sqlite3_value_type]

theorem variant_select_type_col_first (E : Env) (S : StorageClass) :
    ∀ (Args : List HostType) (k : Nat) (T : HostType), Args[k]? = some T →
      has_sqlite_type T S = true →
      (∀ (j : Nat) (U : HostType), j < k → Args[j]? = some U → has_sqlite_type U S = false) →
      ∃ inj : T.Val → Alt Args,
        (∀ x, Alt.index Args (inj x) = k ∧ Alt.content Args (inj x) = ⟨T, x⟩)
        ∧ (∀ (stmt : sqlite3_stmt) (inx : Int),
            variant_select_type_col E stmt inx S Args = Read.map inj (get_col_from_db E stmt inx T))
        ∧ (∀ value : sqlite3_value,
            variant_select_type_val E value S Args = Read.map inj (get_val_from_db E value T))
  | [], k, T, hk, _, _ => by simp at hk
  | A :: Args, 0, T, hk, hT, _ => by
      simp only [List.getElem?_cons_zero, Option.some.injEq] at hk
      subst hk
      refine ⟨fun x => (Sum.inl x : A.Val ⊕ Alt Args), ?_, ?_, ?_⟩
      · intro x
        simp [Alt.index, Alt.content]
      · intro stmt inx
        simp [variant_select_type_col, hT]
      · intro value
        simp [variant_select_type_val, hT]
  | A :: Args, k + 1, T, hk, hT, hlt => by
      simp only [List.getElem?_cons_succ] at hk
      have hA : has_sqlite_type A S = false := hlt 0 A (Nat.succ_pos k) (by simp)
      obtain ⟨inj, h1, h2, h3⟩ := variant_select_type_col_first E S Args k T hk hT
        (fun j U hj hU => hlt (j + 1) U (Nat.succ_lt_succ hj) (by simpa using hU))
      refine ⟨fun x => (Sum.inr (inj x) : A.Val ⊕ Alt Args), ?_, ?_, ?_⟩
      · intro x
        simp [Alt.index, Alt.content, h1 x]
      · intro stmt inx
        simp [variant_select_type_col, hA, h2 stmt inx, Read.map_map]
      · intro value
        simp [variant_select_type_val, hA, h3 value, Read.map_map]

theorem get_col_variant (E : Env) (stmt : sqlite3_stmt) (inx : Int) (Args : List HostType) :
    get_col_from_db E stmt inx (.variant Args)
      = ⟨.column .type inx :: (variant_select_type_col E stmt inx (stmt.column inx).type Args).log,
          (variant_select_type_col E stmt inx (stmt.column inx).type Args).result⟩ := by
  rw [get_col_from_db, Read.bind_type_col]
  cases (stmt.column inx).type <;> rfl

theorem get_val_variant (E : Env) (value : sqlite3_value) (Args : List HostType) :
    get_val_from_db E value (.variant Args)
      = ⟨.value .type :: (variant_select_type_val E value value.type Args).log,
          (variant_select_type_val E value value.type Args).result⟩ := by
  rw [get_val_from_db, Read.bind_type_val]
  cases value.type <;> rfl

/-- C4: TaggedUnion selection rule. Let `T` be the alternative at the least
index `k` of `Args` whose capability set contains the observed storage class
`S`. Then extraction into `std::variant<Args...>`, from a column and from a
value handle alike, queries the storage class and runs the extraction body of
`T`; its outcome is the outcome of that body, wrapped (by `inj`) into the
variant whose active alternative is number `k` with exactly the extracted
value as content. Later alternatives that also support `S` are not chosen. -/
theorem variant_selects_first_compatible (E : Env) (Args : List HostType) (S : StorageClass)
    (k : Nat) (T : HostType) (hk : Args[k]? = some T) (hT : has_sqlite_type T S = true)
    (hmin : ∀ (j : Nat) (U : HostType), j < k → Args[j]? = some U → has_sqlite_type U S = false) :
    ∃ inj : T.Val → Alt Args,
      (∀ x, Alt.index Args (inj x) = k ∧ Alt.content Args (inj x) = ⟨T, x⟩)
      ∧ (∀ (stmt : sqlite3_stmt) (inx : Int), (stmt.column inx).type = S →
          get_col_from_db E stmt inx (.variant Args)
            = ⟨.column .type inx :: (get_col_from_db E stmt inx T).log,
                (get_col_from_db E stmt inx T).result.map inj⟩)
      ∧ (∀ value : sqlite3_value, value.type = S →
          get_val_from_db E value (.variant Args)
            = ⟨.value .type :: (get_val_from_db E value T).log,
                (get_val_from_db E value T).result.map inj⟩) := by
  obtain ⟨inj, h1, h2, h3⟩ := variant_select_type_col_first E S Args k T hk hT hmin
  refine ⟨inj, h1, ?_, ?_⟩
  · intro stmt inx hS
    rw [get_col_variant, hS, h2 stmt inx, Read.map_eq]
  · intro value hS
    rw [get_val_variant, hS, h3 value, Read.map_eq]

/-- Witness for C4: in `variant<std::string, int, sqlite_int64>` an Integer
value selects `int` (index 1), although `sqlite_int64` supports Integer too. -/
theorem variant_selects_first_compatible_witness :
    ([HostType.string, .int, .sqlite_int64] : List HostType)[1]? = some HostType.int
      ∧ has_sqlite_type .int SQLITE_INTEGER = true
      ∧ has_sqlite_type .sqlite_int64 SQLITE_INTEGER = true
      ∧ ∃ inj : HostType.int.Val → Alt [.string, .int, .sqlite_int64],
          (∀ x, Alt.index [.string, .int, .sqlite_int64] (inj x) = 1
            ∧ Alt.content [.string, .int, .sqlite_int64] (inj x) = ⟨.int, x⟩)
          ∧ (∀ (stmt : sqlite3_stmt) (inx : Int), (stmt.column inx).type = SQLITE_INTEGER →
              get_col_from_db Env.sample stmt inx (.variant [.string, .int, .sqlite_int64])
                = ⟨.column .type inx :: (get_col_from_db Env.sample stmt inx .int).log,
                    (get_col_from_db Env.sample stmt inx .int).result.map inj⟩)
          ∧ (∀ value : sqlite3_value, value.type = SQLITE_INTEGER →
              get_val_from_db Env.sample value (.variant [.string, .int, .sqlite_int64])
                = ⟨.value .type :: (get_val_from_db Env.sample value .int).log,
                    (get_val_from_db Env.sample value .int).result.map inj⟩) :=
  ⟨rfl, rfl, rfl,
   variant_selects_first_compatible Env.sample [.string, .int, .sqlite_int64] SQLITE_INTEGER 1 .int
    rfl rfl (by
      intro j U hj hU
      have hj0 : j = 0 := by omega
      subst hj0
      simp only [List.getElem?_cons_zero, Option.some.injEq] at hU
      subst hU
      rfl)⟩

theorem disjunction_eq_false_iff (S : StorageClass) :
    ∀ Args : List HostType,
      disjunction Args S = false ↔ ∀ T ∈ Args, has_sqlite_type T S = false
  | [] => by simp [disjunction]
  | A :: Args => by
      simp [disjunction, disjunction_eq_false_iff S Args]

theorem basic_string_not_thrown (p : Ptr) (n : Int) (e : Exception) :
    (basic_string p n).result ≠ .error (.thrown e) := by
  unfold basic_string
  split
  · simp [Read.fail]
  · split
    · split <;> simp [Read.fail, Read.pure]
    · split <;> simp [Read.fail, Read.pure]

theorem vector_from_range_not_thrown (k : Nat) (p : Ptr) (n : Nat) (e : Exception) :
    (vector_from_range k p n).result ≠ .error (.thrown e) := by
  unfold vector_from_range
  split
  · split <;> simp [Read.fail, Read.pure]
  · split <;> simp [Read.fail, Read.pure]

theorem Read.map_thrown {α β : Type} (f : α → β) (x : Read α) (e : Exception) :
    (Read.map f x).result = .error (.thrown e) ↔ x.result = .error (.thrown e) := by
  unfold Read.map
  cases h : x.result <;> simp

mutual
theorem get_col_thrown (E : Env) (stmt : sqlite3_stmt) (inx : Int) :
    (T : HostType) → (e : Exception) →
      (get_col_from_db E stmt inx T).result = .error (.thrown e) →
      has_sqlite_type T (stmt.column inx).type = false ∧ e = variant_mismatch
  | .int, e, h => by
      exfalso; revert h
      simp only [get_col_from_db, get_col_from_db_int, Read.bind_type_col]
      split <;> simp [Read.pure, sqlite3_column_int]
  | .sqlite_int64, e, h => by
      exfalso; revert h
      simp only [get_col_from_db, get_col_from_db_int64, Read.bind_type_col]
      split <;> simp [Read.pure, sqlite3_column_int64]
  | .integral _ _, e, h => by
      exfalso; revert h
      simp only [get_col_from_db, get_col_from_db_integral, get_col_from_db_int64,
        Read.bind_type_col, Read.map_thrown]
      split <;> simp [Read.pure, sqlite3_column_int64]
  | .bool, e, h => by
      exfalso; revert h
      simp only [get_col_from_db, get_col_from_db_bool, get_col_from_db_int64,
        Read.bind_type_col, Read.map_thrown]
      split <;> simp [Read.pure, sqlite3_column_int64]
  | .float, e, h => by
      exfalso; revert h
      simp only [get_col_from_db, get_col_from_db_float, Read.bind_type_col, Read.map_thrown]
      split <;> simp [Read.pure, sqlite3_column_double]
  | .double, e, h => by
      exfalso; revert h
      simp only [get_col_from_db, get_col_from_db_double, Read.bind_type_col]
      split <;> simp [Read.pure, sqlite3_column_double]
  | .nullptr_t, e, h => by
      simp [get_col_from_db, Read.fail] at h
  | .string, e, h => by
      exfalso; revert h
      simp only [get_col_from_db, get_col_from_db_string, Read.bind_type_col]
      split
      · simp [Read.pure]
      · simp only [Read.bind, sqlite3_column_text, sqlite3_column_bytes]
        exact basic_string_not_thrown _ _ e
  | .u16string, e, h => by
      exfalso; revert h
      simp only [get_col_from_db, get_col_from_db_u16string, Read.bind_type_col]
      split
      · simp [Read.pure]
      · simp only [Read.bind, sqlite3_column_text16, sqlite3_column_bytes16]
        exact basic_string_not_thrown _ _ e
  | .vector k, e, h => by
      exfalso; revert h
      simp only [get_col_from_db, get_col_from_db_vector, Read.bind_type_col]
      split
      · simp [Read.pure]
      · simp only [Read.bind, sqlite3_column_blob, sqlite3_column_bytes]
        exact vector_from_range_not_thrown _ _ _ e
  | .blob_t, e, h => by
      exfalso; revert h
      simp only [get_col_from_db, get_col_from_db_blob, Read.bind_type_col]
      split <;> simp [Read.pure, Read.bind, sqlite3_column_blob, sqlite3_column_bytes]
  | .unique_ptr T, e, h => by
      simp only [get_col_from_db, Read.bind_type_col] at h
      split at h
      · simp [Read.pure] at h
      · rename_i hn
        rw [Read.map_thrown] at h
        have ih := get_col_thrown E stmt inx T e h
        simp [has_sqlite_type, ih.1, ih.2, hn]
  | .optional T, e, h => by
      simp only [get_col_from_db, Read.bind_type_col] at h
      split at h
      · simp [Read.pure] at h
      · rename_i hn
        rw [Read.map_thrown] at h
        have ih := get_col_thrown E stmt inx T e h
        simp [has_sqlite_type, ih.1, ih.2, hn]
  | .variant Args, e, h => by
      rw [get_col_variant] at h
      simpa [has_sqlite_type] using variant_select_type_col_thrown E stmt inx Args e h
theorem variant_select_type_col_thrown (E : Env) (stmt : sqlite3_stmt) (inx : Int) :
    (Args : List HostType) → (e : Exception) →
      (variant_select_type_col E stmt inx (stmt.column inx).type Args).result = .error (.thrown e) →
      disjunction Args (stmt.column inx).type = false ∧ e = variant_mismatch
  | [], e, h => by
      simp only [variant_select_type_col, Read.fail, Except.error.injEq, Failure.thrown.injEq] at h
      simp [disjunction, ← h, variant_mismatch]
  | A :: Args, e, h => by
      simp only [variant_select_type_col] at h
      split at h
      · rename_i hA
        rw [Read.map_thrown] at h
        have ih := get_col_thrown E stmt inx A e h
        rw [ih.1] at hA
        exact absurd hA (by simp)
      · rename_i hA
        rw [Read.map_thrown] at h
        have ih := variant_select_type_col_thrown E stmt inx Args e h
        simp [disjunction, ih.1, ih.2, hA]
end

mutual
theorem get_val_thrown (E : Env) (value : sqlite3_value) :
    (T : HostType) → (e : Exception) →
      (get_val_from_db E value T).result = .error (.thrown e) →
      has_sqlite_type T value.type = false ∧ e = variant_mismatch
  | .int, e, h => by
      exfalso; revert h
      simp only [get_val_from_db, get_val_from_db_int, Read.bind_type_val]
      split <;> simp [Read.pure, sqlite3_value_int]
  | .sqlite_int64, e, h => by
      exfalso; revert h
      simp only [get_val_from_db, get_val_from_db_int64, Read.bind_type_val]
      split <;> simp [Read.pure, sqlite3_value_int64]
  | .integral _ _, e, h => by
      exfalso; revert h
      simp only [get_val_from_db, get_val_from_db_integral, get_val_from_db_int64,
        Read.bind_type_val, Read.map_thrown]
      split <;> simp [Read.pure, sqlite3_value_int64]
  | .bool, e, h => by
      exfalso; revert h
      simp only [get_val_from_db, get_val_from_db_bool, get_val_from_db_int64,
        Read.bind_type_val, Read.map_thrown]
      split <;> simp [Read.pure, sqlite3_value_int64]
  | .float, e, h => by
      exfalso; revert h
      simp only [get_val_from_db, get_val_from_db_float, Read.bind_type_val, Read.map_thrown]
      split <;> simp [Read.pure, sqlite3_value_double]
  | .double, e, h => by
      exfalso; revert h
      simp only [get_val_from_db, get_val_from_db_double, Read.bind_type_val]
      split <;> simp [Read.pure, sqlite3_value_double]
  | .nullptr_t, e, h => by
      simp [get_val_from_db, Read.fail] at h
  | .string, e, h => by
      exfalso; revert h
      simp only [get_val_from_db, get_val_from_db_string, Read.bind_type_val]
      split
      · simp [Read.pure]
      · simp only [Read.bind, sqlite3_value_text, sqlite3_value_bytes]
        exact basic_string_not_thrown _ _ e
  | .u16string, e, h => by
      exfalso; revert h
      simp only [get_val_from_db, get_val_from_db_u16string, Read.bind_type_val]
      split
      · simp [Read.pure]
      · simp only [Read.bind, sqlite3_value_text16, sqlite3_value_bytes16]
        exact basic_string_not_thrown _ _ e
  | .vector k, e, h => by
      exfalso; revert h
      simp only [get_val_from_db, get_val_from_db_vector, Read.bind_type_val]
      split
      · simp [Read.pure]
      · simp only [Read.bind, sqlite3_value_blob, sqlite3_value_bytes]
        exact vector_from_range_not_thrown _ _ _ e
  | .blob_t, e, h => by
      exfalso; revert h
      simp only [get_val_from_db, get_val_from_db_blob, Read.bind_type_val]
      split <;> simp [Read.pure, Read.bind, sqlite3_value_blob, sqlite3_value_bytes]
  | .unique_ptr T, e, h => by
      simp only [get_val_from_db, Read.bind_type_val] at h
      split at h
      · simp [Read.pure] at h
      · rename_i hn
        rw [Read.map_thrown] at h
        have ih := get_val_thrown E value T e h
        simp [has_sqlite_type, ih.1, ih.2, hn]
  | .optional T, e, h => by
      simp only [get_val_from_db, Read.bind_type_val] at h
      split at h
      · simp [Read.pure] at h
      · rename_i hn
        rw [Read.map_thrown] at h
        have ih := get_val_thrown E value T e h
        simp [has_sqlite_type, ih.1, ih.2, hn]
  | .variant Args, e, h => by
      rw [get_val_variant] at h
      simpa [has_sqlite_type] using variant_select_type_val_thrown E value Args e h
theorem variant_select_type_val_thrown (E : Env) (value : sqlite3_value) :
    (Args : List HostType) → (e : Exception) →
      (variant_select_type_val E value value.type Args).result = .error (.thrown e) →
      disjunction Args value.type = false ∧ e = variant_mismatch
  | [], e, h => by
      simp only [variant_select_type_val, Read.fail, Except.error.injEq, Failure.thrown.injEq] at h
      simp [disjunction, ← h, variant_mismatch]
  | A :: Args, e, h => by
      simp only [variant_select_type_val] at h
      split at h
      · rename_i hA
        rw [Read.map_thrown] at h
        have ih := get_val_thrown E value A e h
        rw [ih.1] at hA
        exact absurd hA (by simp)
      · rename_i hA
        rw [Read.map_thrown] at h
        have ih := variant_select_type_val_thrown E value Args e h
        simp [disjunction, ih.1, ih.2, hA]
end

theorem variant_select_type_col_none (E : Env) (stmt : sqlite3_stmt) (inx : Int) (S : StorageClass) :
    ∀ Args : List HostType, disjunction Args S = false →
      variant_select_type_col E stmt inx S Args = ⟨[], .error (.thrown variant_mismatch)⟩
  | [], _ => by simp [variant_select_type_col, Read.fail, variant_mismatch]
  | A :: Args, h => by
      simp only [disjunction, Bool.or_eq_false_iff] at h
      simp [variant_select_type_col, h.1, variant_select_type_col_none E stmt inx S Args h.2, Read.map]

theorem variant_select_type_val_none (E : Env) (value : sqlite3_value) (S : StorageClass) :
    ∀ Args : List HostType, disjunction Args S = false →
      variant_select_type_val E value S Args = ⟨[], .error (.thrown variant_mismatch)⟩
  | [], _ => by simp [variant_select_type_val, Read.fail, variant_mismatch]
  | A :: Args, h => by
      simp only [disjunction, Bool.or_eq_false_iff] at h
      simp [variant_select_type_val, h.1, variant_select_type_val_none E value S Args h.2, Read.map]

/-- C5: TaggedUnion mismatch. Extraction into `std::variant<Args...>`, from a
column and from a value handle alike, ends with a thrown exception if and only
if no declared alternative has the observed storage class in its capability
set; the exception is then `errors::mismatch` carrying `SQLITE_MISMATCH`, and
it is thrown right after the query of the storage class. In particular
`variant<int, double>` on a Blob column and `variant<int, std::string>` on a
Null column throw it. -/
theorem variant_mismatch_iff (E : Env) (Args : List HostType) :
    (∀ (stmt : sqlite3_stmt) (inx : Int),
        ((∃ e, (get_col_from_db E stmt inx (.variant Args)).result = .error (.thrown e))
          ↔ ∀ T ∈ Args, has_sqlite_type T (stmt.column inx).type = false)
        ∧ (∀ e, (get_col_from_db E stmt inx (.variant Args)).result = .error (.thrown e) →
            e = .mismatch "The value is unsupported by this variant." "" SQLITE_MISMATCH
              ∧ e.get_code = SQLITE_MISMATCH)
        ∧ ((∀ T ∈ Args, has_sqlite_type T (stmt.column inx).type = false) →
            get_col_from_db E stmt inx (.variant Args)
              = ⟨[.column .type inx], .error (.thrown variant_mismatch)⟩))
    ∧ (∀ value : sqlite3_value,
        ((∃ e, (get_val_from_db E value (.variant Args)).result = .error (.thrown e))
          ↔ ∀ T ∈ Args, has_sqlite_type T value.type = false)
        ∧ (∀ e, (get_val_from_db E value (.variant Args)).result = .error (.thrown e) →
            e = .mismatch "The value is unsupported by this variant." "" SQLITE_MISMATCH
              ∧ e.get_code = SQLITE_MISMATCH)
        ∧ ((∀ T ∈ Args, has_sqlite_type T value.type = false) →
            get_val_from_db E value (.variant Args)
              = ⟨[.value .type], .error (.thrown variant_mismatch)⟩))
    ∧ (∀ (stmt : sqlite3_stmt) (inx : Int), (stmt.column inx).type = SQLITE_BLOB →
        (get_col_from_db E stmt inx (.variant [.int, .double])).result
          = .error (.thrown variant_mismatch))
    ∧ (∀ (stmt : sqlite3_stmt) (inx : Int), (stmt.column inx).type = SQLITE_NULL →
        (get_col_from_db E stmt inx (.variant [.int, .string])).result
          = .error (.thrown variant_mismatch)) := by
  have hcol : ∀ (Args : List HostType) (stmt : sqlite3_stmt) (inx : Int),
      (∀ T ∈ Args, has_sqlite_type T (stmt.column inx).type = false) →
        get_col_from_db E stmt inx (.variant Args)
          = ⟨[.column .type inx], .error (.thrown variant_mismatch)⟩ := by
    intro Args stmt inx h
    rw [get_col_variant, variant_select_type_col_none E stmt inx _ Args
      ((disjunction_eq_false_iff _ Args).2 h)]
  have hval : ∀ (Args : List HostType) (value : sqlite3_value),
      (∀ T ∈ Args, has_sqlite_type T value.type = false) →
        get_val_from_db E value (.variant Args)
          = ⟨[.value .type], .error (.thrown variant_mismatch)⟩ := by
    intro Args value h
    rw [get_val_variant, variant_select_type_val_none E value _ Args
      ((disjunction_eq_false_iff _ Args).2 h)]
  refine ⟨?_, ?_, ?_, ?_⟩
  · intro stmt inx
    refine ⟨⟨?_, ?_⟩, ?_, hcol Args stmt inx⟩
    · rintro ⟨e, he⟩
      have := (get_col_thrown E stmt inx (.variant Args) e he).1
      exact (disjunction_eq_false_iff _ Args).1 (by simpa [has_sqlite_type] using this)
    · intro h
      exact ⟨variant_mismatch, by rw [hcol Args stmt inx h]⟩
    · intro e he
      have := (get_col_thrown E stmt inx (.variant Args) e he).2
      subst this
      exact ⟨rfl, rfl⟩
  · intro value
    refine ⟨⟨?_, ?_⟩, ?_, hval Args value⟩
    · rintro ⟨e, he⟩
      have := (get_val_thrown E value (.variant Args) e he).1
      exact (disjunction_eq_false_iff _ Args).1 (by simpa [has_sqlite_type] using this)
    · intro h
      exact ⟨variant_mismatch, by rw [hval Args value h]⟩
    · intro e he
      have := (get_val_thrown E value (.variant Args) e he).2
      subst this
      exact ⟨rfl, rfl⟩
  · intro stmt inx h
    rw [hcol [.int, .double] stmt inx (by simp [h, has_sqlite_type])]
  · intro stmt inx h
    rw [hcol [.int, .string] stmt inx (by simp [h, has_sqlite_type])]

/-- Witness for C5: `variant<int, double>` on a row whose column holds a blob. -/
theorem variant_mismatch_iff_witness :
    (sqlite3_stmt.column (sqlite3_stmt.sample [.blob [1, 2]]) 0).type = SQLITE_BLOB
      ∧ (get_col_from_db Env.sample (sqlite3_stmt.sample [.blob [1, 2]]) 0
            (.variant [.int, .double])).result
          = .error (.thrown (.mismatch "The value is unsupported by this variant." "" 20)) :=
  ⟨rfl, (variant_mismatch_iff Env.sample [.int, .double]).2.2.1
    (sqlite3_stmt.sample [.blob [1, 2]]) 0 rfl⟩

theorem length_flatten_of_sized (k : Nat) :
    ∀ elems : List (List Nat), (∀ e ∈ elems, e.length = k) →
      elems.flatten.length = elems.length * k
  | [], _ => by simp
  | e :: es, h => by
      have he : e.length = k := h e (List.mem_cons_self _ _)
      have ih := length_flatten_of_sized k es (fun x hx => h x (List.mem_cons_of_mem _ hx))
      simp only [List.flatten_cons, List.length_append, List.length_cons, he, ih]
      ring

theorem objects_flatten (k : Nat) :
    ∀ elems : List (List Nat), (∀ e ∈ elems, e.length = k) →
      objects k elems.length elems.flatten = elems
  | [], _ => by simp [objects]
  | e :: es, h => by
      have he : e.length = k := h e (List.mem_cons_self _ _)
      have ih := objects_flatten k es (fun x hx => h x (List.mem_cons_of_mem _ hx))
      simp only [List.flatten_cons, List.length_cons, objects]
      rw [List.take_left' he, List.drop_left' he, ih]

theorem wrapSigned_32_of_nat (n : Nat) (h : (n : Int) < 2 ^ 31) : wrapSigned 32 (n : Int) = n := by
  apply wrapSigned_of_inRange 32 (by decide)
  unfold InRange
  simp only [if_true]
  constructor
  · have : (0 : Int) ≤ n := Int.ofNat_nonneg n
    norm_num
    omega
  · simpa using h

theorem get_col_vector_blob (E : Env) (cur : sqlite3_stmt) (col : Int) (k : Nat) (hk : 1 ≤ k)
    (elems : List (List Nat)) (hs : ∀ e ∈ elems, e.length = k)
    (h : cur.column col = .blob elems.flatten) :
    get_col_from_db E cur col (.vector k)
      = ⟨[.column .type col, .column .bytes col, .column .blob col],
          .ok ⟨elems, decide (elems.length ≠ 0)⟩⟩ := by
  have hlen := length_flatten_of_sized k elems hs
  have hdiv : elems.length * k / k = elems.length := Nat.mul_div_cancel _ (by omega)
  have hb : Value.asBlob E (.blob elems.flatten)
      = if elems.flatten = [] then none else some elems.flatten := rfl
  have hby : Value.asBytes E (.blob elems.flatten) = ((elems.length * k : Nat) : Int) := by
    simp only [Value.asBytes, Value.utf8, hlen]
  rw [get_col_from_db, get_col_from_db_vector, Read.bind_type_col, h]
  simp only [Value.type, reduceCtorEq, if_false, Read.bind, sqlite3_column_bytes,
    sqlite3_column_blob, h, hb, hby, Int.toNat_ofNat, hdiv]
  cases elems with
  | nil => simp [vector_from_range, Read.pure]
  | cons e es =>
    have hne : (e :: es).flatten ≠ [] := by
      intro h0
      have := congrArg List.length h0
      rw [hlen] at this
      simp at this
      omega
    have hobj := objects_flatten k (e :: es) hs
    rw [if_neg hne]
    simp only [vector_from_range, hlen, le_refl, if_true, Read.pure, hobj]
    simp

theorem get_col_vector_null (E : Env) (cur : sqlite3_stmt) (col : Int) (k : Nat)
    (h : cur.column col = .null) :
    get_col_from_db E cur col (.vector k) = ⟨[.column .type col], .ok ⟨[], false⟩⟩ := by
  simp [get_col_from_db, get_col_from_db_vector, Read.bind_type_col, h, Value.type, Read.pure]

/-- Sequence round trip for a 4-byte element type. For every vector of
`N >= 0` elements with `N*4` representable as an `int`, `bind_col_in_db`
issues exactly one `sqlite3_bind_blob` call with `vec.data()` and the byte
count `N*4`. Whenever `vec.data()` is not null, which is the case for every
`N >= 1`, the engine then holds a Blob of exactly `N*4` bytes, the object
representations of the elements in order. In every case the engine holds some
value, and `get_col_from_db` as `std::vector` on a column holding it returns a
vector of exactly `N` elements equal element-wise to the one bound. -/
theorem vector_round_trip (E : Env) (stmt : sqlite3_stmt) (inx : Int) (vec : StdVector)
    (hwf : vec.WellFormed 4) (hN : ((vec.size * 4 : Nat) : Int) < 2 ^ 31) :
    bind_col_in_db E stmt inx (.vector 4) vec
        = .ok ⟨[.sqlite3_bind_blob inx vec.data ((vec.size * 4 : Nat) : Int)],
            stmt.respond (.sqlite3_bind_blob inx vec.data ((vec.size * 4 : Nat) : Int))⟩
      ∧ (vec.allocated = true →
          (BindCall.sqlite3_bind_blob inx vec.data ((vec.size * 4 : Nat) : Int)).stored
              = some (.blob vec.elems.flatten)
            ∧ vec.elems.flatten.length = vec.size * 4)
      ∧ (1 ≤ vec.size → vec.allocated = true)
      ∧ ∃ v, (BindCall.sqlite3_bind_blob inx vec.data ((vec.size * 4 : Nat) : Int)).stored = some v
          ∧ ∀ (cur : sqlite3_stmt) (col : Int), cur.column col = v →
              ∃ r : StdVector, (get_col_from_db E cur col (.vector 4)).result = .ok r
                ∧ r.elems = vec.elems ∧ r.size = vec.size := by
  obtain ⟨halloc, hsz⟩ := hwf
  have hlen := length_flatten_of_sized 4 vec.elems hsz
  have hst : vec.allocated = true →
      (BindCall.sqlite3_bind_blob inx vec.data ((vec.size * 4 : Nat) : Int)).stored
        = some (.blob vec.elems.flatten) := by
    intro ha
    have hnn : ¬ (((vec.size * 4 : Nat) : Int) < 0) := by omega
    simp [BindCall.stored, StdVector.data, ha, hnn, StdVector.size, hlen]
  refine ⟨?_, fun ha => ⟨hst ha, by rw [hlen, StdVector.size]⟩, ?_, ?_⟩
  · simp only [bind_col_in_db, bind_col_in_db_vector, sqlite3_bind_blob, sqlite3_stmt.issue,
      wrapSigned_32_of_nat _ hN]
  · intro h1
    apply halloc
    intro h0
    rw [StdVector.size, h0] at h1
    simp at h1
  · cases ha : vec.allocated with
    | true =>
      refine ⟨_, hst ha, ?_⟩
      intro cur col hc
      rw [get_col_vector_blob E cur col 4 (by decide) vec.elems hsz hc]
      exact ⟨_, rfl, rfl, rfl⟩
    | false =>
      have he : vec.elems = [] := by
        by_contra hne
        have := halloc hne
        rw [ha] at this
        exact absurd this (by simp)
      refine ⟨.null, by simp [BindCall.stored, StdVector.data, ha], ?_⟩
      intro cur col hc
      rw [get_col_vector_null E cur col 4 hc]
      exact ⟨_, rfl, by simp [he], by simp [he, StdVector.size]⟩

/-- The round trip of a vector of two 4-byte elements. -/
theorem vector_round_trip_witness :
    StdVector.WellFormed 4 ⟨[[1, 0, 0, 0], [2, 0, 0, 0]], true⟩
      ∧ (BindCall.sqlite3_bind_blob 1 (some [1, 0, 0, 0, 2, 0, 0, 0]) 8).stored
          = some (.blob [1, 0, 0, 0, 2, 0, 0, 0])
      ∧ (get_col_from_db Env.sample (sqlite3_stmt.sample [.blob [1, 0, 0, 0, 2, 0, 0, 0]]) 0
            (.vector 4)).result
          = .ok ⟨[[1, 0, 0, 0], [2, 0, 0, 0]], true⟩ :=
  have hwf : StdVector.WellFormed 4 ⟨[[1, 0, 0, 0], [2, 0, 0, 0]], true⟩ :=
    ⟨fun _ => rfl, by decide⟩
  ⟨hwf,
   ((vector_round_trip Env.sample (sqlite3_stmt.sample []) 1
      ⟨[[1, 0, 0, 0], [2, 0, 0, 0]], true⟩ hwf (by decide)).2.1 rfl).1,
   rfl⟩

/-- C6, the code at the failing input: a default-constructed vector (`N = 0`)
has a null `data()`; the binder passes that null pointer with the byte count 0
to `sqlite3_bind_blob`, and the engine then holds a value of storage class
Null, not a Blob of `N*4 = 0` bytes. A vector of one element is handed over as
a Blob of 4 bytes. -/
theorem empty_vector_binds_null :
    StdVector.WellFormed 4 ⟨[], false⟩
      ∧ bind_col_in_db Env.sample (sqlite3_stmt.sample []) 1 (.vector 4) ⟨[], false⟩
          = .ok ⟨[.sqlite3_bind_blob 1 none 0], SQLITE_OK⟩
      ∧ (BindCall.sqlite3_bind_blob 1 none 0).stored = some .null
      ∧ Value.null.type = SQLITE_NULL
      ∧ Value.null.type ≠ SQLITE_BLOB
      ∧ bind_col_in_db Env.sample (sqlite3_stmt.sample []) 1 (.vector 4)
          ⟨[[7, 0, 0, 0]], true⟩ = .ok ⟨[.sqlite3_bind_blob 1 (some [7, 0, 0, 0]) 4], SQLITE_OK⟩
      ∧ (BindCall.sqlite3_bind_blob 1 (some [7, 0, 0, 0]) 4).stored
          = some (.blob [7, 0, 0, 0]) :=
  ⟨⟨fun h => absurd rfl h, by decide⟩, rfl, rfl, rfl, by decide, rfl, rfl⟩

theorem get_col_u16string_text16 (E : Env) (cur : sqlite3_stmt) (col : Int) (s : List Nat)
    (h : cur.column col = .text16 s) :
    get_col_from_db E cur col .u16string
      = ⟨[.column .type col, .column .text16 col, .column .bytes16 col],
          if 2 * s.length ≤ s.length + 1 then .ok ((s ++ [0]).take (2 * s.length))
          else .error .undefined⟩ := by
  have hn : ¬ (2 * (s.length : Int) < 0) := by omega
  have ht : (2 * (s.length : Int)).toNat = 2 * s.length := by omega
  rw [get_col_from_db, get_col_from_db_u16string, Read.bind_type_col, h]
  simp only [Value.type, reduceCtorEq, if_false, Read.bind, sqlite3_column_text16,
    sqlite3_column_bytes16, h, Value.asText16, Value.asBytes16, Value.utf16, basic_string, hn, ht,
    List.length_append, List.length_singleton]
  split <;> simp [Read.pure, Read.fail]

/-- C7, the code at the failing input: the one-unit string "a" is bound with
`sqlite3_bind_text16` and stored as the text "a"; `sqlite3_column_bytes16`
reports its length in bytes, 2, and the extractor passes that number to the
`std::u16string` constructor as a count of code units, so the result has two
code units, "a" followed by the terminator, and is not the string bound. -/
theorem u16string_extraction_doubles_length :
    bind_col_in_db Env.sample (sqlite3_stmt.sample []) 1 .u16string [97]
        = .ok ⟨[.sqlite3_bind_text16 1 (some [97, 0]) (-1)], SQLITE_OK⟩
      ∧ (BindCall.sqlite3_bind_text16 1 (some [97, 0]) (-1)).stored = some (.text16 [97])
      ∧ (Value.text16 [97]).asBytes16 Env.sample = 2
      ∧ (get_col_from_db Env.sample (sqlite3_stmt.sample [.text16 [97]]) 0 .u16string).result
          = .ok [97, 0]
      ∧ (get_val_from_db Env.sample (.text16 [97]) .u16string).result = .ok [97, 0]
      ∧ ([97, 0] : List Nat) ≠ [97] :=
  ⟨rfl, rfl, rfl, rfl, rfl, by decide⟩

theorem u16string_never_round_trips (E : Env) (cur : sqlite3_stmt) (col : Int) (s : List Nat)
    (hs : s ≠ []) (h : cur.column col = .text16 s) :
    (get_col_from_db E cur col .u16string).result ≠ .ok s := by
  rw [get_col_u16string_text16 E cur col s h]
  have hl : 1 ≤ s.length := by
    cases s with
    | nil => exact absurd rfl hs
    | cons a t => simp
  show (if 2 * s.length ≤ s.length + 1 then Except.ok ((s ++ [0]).take (2 * s.length))
    else Except.error Failure.undefined) ≠ Except.ok s
  split
  · rename_i hle
    intro heq
    have := congrArg (fun r => match r with | Except.ok (l : List Nat) => l.length | _ => 0) heq
    simp at this
    omega
  · simp

theorem stored_bind_text (inx : Int) (s : List Nat) :
    (BindCall.sqlite3_bind_text inx (c_str s) (-1)).stored = some (.text (before_nul s))
      ∧ (0 ∉ s → (BindCall.sqlite3_bind_text inx (c_str s) (-1)).stored = some (.text s)) := by
  have hst : (BindCall.sqlite3_bind_text inx (c_str s) (-1)).stored
      = some (.text (before_nul s)) := by
    simp [BindCall.stored, c_str, before_nul, takeWhile_terminated]
  refine ⟨hst, fun h0 => ?_⟩
  rw [hst, before_nul, takeWhile_no_nul s h0]
/-- C8: TaggedUnion(Integer, Text) round trip, for `std::variant<int,
std::string>`. Binding a variant that holds the `int` alternative `x` issues
the integer bind call, the engine holds an Integer-class value, and extracting
that column as the same variant type returns the `int` alternative with
content `x`. Binding a variant that holds the text alternative `s` (without
zero bytes) issues the text bind call, the engine holds a Text-class value,
and extraction returns the text alternative (index 1) with content `s`, never
the `int` alternative; so it is for "abc". -/
theorem variant_int_string_round_trip (E : Env) (stmt : sqlite3_stmt) (inx : Int) :
    (∀ x : Int, InRange true 32 x →
        bind_col_in_db E stmt inx (.variant [.int, .string]) (Sum.inl x)
            = .ok ⟨[.sqlite3_bind_int inx x], stmt.respond (.sqlite3_bind_int inx x)⟩
          ∧ (BindCall.sqlite3_bind_int inx x).stored = some (.integer x)
          ∧ (Value.integer x).type = SQLITE_INTEGER
          ∧ ∀ (cur : sqlite3_stmt) (col : Int), cur.column col = .integer x →
              (get_col_from_db E cur col (.variant [.int, .string])).result = .ok (Sum.inl x))
    ∧ (∀ s : List Nat, 0 ∉ s →
        bind_col_in_db E stmt inx (.variant [.int, .string]) (Sum.inr (Sum.inl s))
            = .ok ⟨[.sqlite3_bind_text inx (c_str s) (-1)],
                stmt.respond (.sqlite3_bind_text inx (c_str s) (-1))⟩
          ∧ (BindCall.sqlite3_bind_text inx (c_str s) (-1)).stored = some (.text s)
          ∧ (Value.text s).type = SQLITE_TEXT
          ∧ ∀ (cur : sqlite3_stmt) (col : Int), cur.column col = .text s →
              (get_col_from_db E cur col (.variant [.int, .string])).result
                  = .ok (Sum.inr (Sum.inl s))
                ∧ Alt.index [.int, .string] (Sum.inr (Sum.inl s)) = 1)
    ∧ (∀ (cur : sqlite3_stmt) (col : Int), cur.column col = .text [97, 98, 99] →
        (get_col_from_db E cur col (.variant [.int, .string])).result
            = .ok (Sum.inr (Sum.inl [97, 98, 99]))
          ∧ ∀ x : Int, (get_col_from_db E cur col (.variant [.int, .string])).result
              ≠ .ok (Sum.inl x)) := by
  have htext : ∀ (s : List Nat) (cur : sqlite3_stmt) (col : Int), cur.column col = .text s →
      (get_col_from_db E cur col (.variant [.int, .string])).result
        = .ok (Sum.inr (Sum.inl s)) := by
    intro s cur col hc
    rw [get_col_variant, hc]
    simp [Value.type, variant_select_type_col, has_sqlite_type, Read.map_eq,
      get_col_string_text E cur col s hc, Except.map]
  refine ⟨?_, ?_, ?_⟩
  · intro x hx
    refine ⟨?_, rfl, rfl, ?_⟩
    · simp [bind_col_in_db, bind_col_in_db_visit, bind_col_in_db_int, sqlite3_bind_int,
        sqlite3_stmt.issue, bind_compiles, all_bind_compile]
    · intro cur col hc
      rw [get_col_variant, hc]
      simp [Value.type, variant_select_type_col, has_sqlite_type, Read.map_eq,
        get_col_int_integer E cur col x hc, Except.map, wrapSigned_of_inRange 32 (by decide) x hx]
  · intro s hs
    refine ⟨?_, ((stored_bind_text inx s).2 hs), rfl, ?_⟩
    · simp [bind_col_in_db, bind_col_in_db_visit, bind_col_in_db_string, sqlite3_bind_text,
        sqlite3_stmt.issue, bind_compiles, all_bind_compile]
    · intro cur col hc
      exact ⟨htext s cur col hc, by simp [Alt.index]⟩
  · intro cur col hc
    refine ⟨htext _ cur col hc, ?_⟩
    intro x
    rw [htext _ cur col hc]
    simp

/-- Witness for C8: the text alternative "abc" and the integer alternative 7. -/
theorem variant_int_string_round_trip_witness :
    (0 : Nat) ∉ ([97, 98, 99] : List Nat)
      ∧ InRange true 32 7
      ∧ (get_col_from_db Env.sample (sqlite3_stmt.sample [.text [97, 98, 99]]) 0
            (.variant [.int, .string])).result = .ok (Sum.inr (Sum.inl [97, 98, 99]))
      ∧ (get_col_from_db Env.sample (sqlite3_stmt.sample [.integer 7]) 0
            (.variant [.int, .string])).result = .ok (Sum.inl (7 : Int)) :=
  ⟨by decide, by decide,
   (((variant_int_string_round_trip Env.sample (sqlite3_stmt.sample []) 1).2.1 [97, 98, 99]
      (by decide)).2.2.2 (sqlite3_stmt.sample [.text [97, 98, 99]]) 0 rfl).1,
   ((variant_int_string_round_trip Env.sample (sqlite3_stmt.sample []) 1).1 7
      (by decide)).2.2.2 (sqlite3_stmt.sample [.integer 7]) 0 rfl⟩

theorem get_col_int_null (E : Env) (cur : sqlite3_stmt) (col : Int) (h : cur.column col = .null) :
    get_col_from_db E cur col .int = ⟨[.column .type col], .ok (0 : Int)⟩ := by
  simp [get_col_from_db, get_col_from_db_int, Read.bind_type_col, h, Value.type, Read.pure]

/-- C9: Nullable round trip for `std::unique_ptr<int>` and `optional<int>`.
A null pointer or empty optional is bound with `sqlite3_bind_null`, the engine
holds a value of storage class Null, extracting that column into the same
wrapper type returns null or empty, and extracting it as plain `int` returns
0. A wrapper holding `x` is bound like the `int` `x`, the engine holds the
Integer `x`, and extracting that column into the same wrapper type returns a
wrapper holding `x`. -/
theorem nullable_round_trip (E : Env) (stmt : sqlite3_stmt) (inx : Int) :
    (bind_col_in_db E stmt inx (.unique_ptr .int) none
          = .ok ⟨[.sqlite3_bind_null inx], stmt.respond (.sqlite3_bind_null inx)⟩
      ∧ bind_col_in_db E stmt inx (.optional .int) none
          = .ok ⟨[.sqlite3_bind_null inx], stmt.respond (.sqlite3_bind_null inx)⟩
      ∧ (BindCall.sqlite3_bind_null inx).stored = some .null
      ∧ Value.null.type = SQLITE_NULL
      ∧ ∀ (cur : sqlite3_stmt) (col : Int), cur.column col = .null →
          (get_col_from_db E cur col (.unique_ptr .int)).result = .ok none
            ∧ (get_col_from_db E cur col (.optional .int)).result = .ok none
            ∧ (get_col_from_db E cur col .int).result = .ok (0 : Int))
    ∧ (∀ x : Int, InRange true 32 x →
        bind_col_in_db E stmt inx (.unique_ptr .int) (some x)
            = .ok ⟨[.sqlite3_bind_int inx x], stmt.respond (.sqlite3_bind_int inx x)⟩
          ∧ bind_col_in_db E stmt inx (.optional .int) (some x)
            = .ok ⟨[.sqlite3_bind_int inx x], stmt.respond (.sqlite3_bind_int inx x)⟩
          ∧ (BindCall.sqlite3_bind_int inx x).stored = some (.integer x)
          ∧ ∀ (cur : sqlite3_stmt) (col : Int), cur.column col = .integer x →
              (get_col_from_db E cur col (.unique_ptr .int)).result = .ok (some x)
                ∧ (get_col_from_db E cur col (.optional .int)).result = .ok (some x)) := by
  refine ⟨⟨?_, ?_, rfl, rfl, ?_⟩, ?_⟩
  · simp [bind_col_in_db, bind_col_in_db_nullptr, sqlite3_bind_null, sqlite3_stmt.issue,
      bind_compiles, bind_declared_for_unique_ptr, bind_declared_for_optional]
  · simp [bind_col_in_db, bind_col_in_db_nullptr, sqlite3_bind_null, sqlite3_stmt.issue,
      bind_compiles, bind_declared_for_unique_ptr, bind_declared_for_optional]
  · intro cur col hc
    refine ⟨?_, ?_, ?_⟩
    · simp [get_col_from_db, Read.bind_type_col, hc, Value.type, Read.pure]
    · simp [get_col_from_db, Read.bind_type_col, hc, Value.type, Read.pure]
    · rw [get_col_int_null E cur col hc]
  · intro x hx
    refine ⟨?_, ?_, rfl, ?_⟩
    · simp [bind_col_in_db, bind_col_in_db_int, sqlite3_bind_int, sqlite3_stmt.issue,
        bind_compiles, bind_declared_for_unique_ptr, bind_declared_for_optional]
    · simp [bind_col_in_db, bind_col_in_db_int, sqlite3_bind_int, sqlite3_stmt.issue,
        bind_compiles, bind_declared_for_unique_ptr, bind_declared_for_optional]
    · intro cur col hc
      have hi := get_col_int_integer E cur col x hc
      rw [wrapSigned_of_inRange 32 (by decide) x hx] at hi
      constructor
      · rw [get_col_from_db, Read.bind_type_col, hc]
        simp [Value.type, Read.map_eq, hi, Except.map]
      · rw [get_col_from_db, Read.bind_type_col, hc]
        simp [Value.type, Read.map_eq, hi, Except.map]

/-- Witness for C9: a `unique_ptr<int>` holding -3, and the null pointer. -/
theorem nullable_round_trip_witness :
    InRange true 32 (-3)
      ∧ (get_col_from_db Env.sample (sqlite3_stmt.sample [.integer (-3)]) 0
            (.unique_ptr .int)).result = .ok (some (-3 : Int))
      ∧ (get_col_from_db Env.sample (sqlite3_stmt.sample [.null]) 0
            (.unique_ptr .int)).result = .ok none
      ∧ (get_col_from_db Env.sample (sqlite3_stmt.sample [.null]) 0 .int).result
          = .ok (0 : Int) :=
  ⟨by decide,
   (((nullable_round_trip Env.sample (sqlite3_stmt.sample []) 1).2 (-3) (by decide)).2.2.2
      (sqlite3_stmt.sample [.integer (-3)]) 0 rfl).1,
   ((nullable_round_trip Env.sample (sqlite3_stmt.sample []) 1).1.2.2.2.2
      (sqlite3_stmt.sample [.null]) 0 rfl).1,
   ((nullable_round_trip Env.sample (sqlite3_stmt.sample []) 1).1.2.2.2.2
      (sqlite3_stmt.sample [.null]) 0 rfl).2.2⟩

/-- Where the binder of the wrapper compiles, binding an empty `optional<T>` or
a null `std::unique_ptr<T>` is binding the null sentinel, and binding a wrapper
that holds `v` is binding `v` with the binder of `T`. -/
theorem nullable_bind_delegates (E : Env) (stmt : sqlite3_stmt) (inx : Int) (T : HostType) :
    (bind_compiles (.optional T) = true →
        bind_col_in_db E stmt inx (.optional T) none = bind_col_in_db E stmt inx .nullptr_t ()
          ∧ ∀ v : T.Val,
              bind_col_in_db E stmt inx (.optional T) (some v) = bind_col_in_db E stmt inx T v)
      ∧ (bind_compiles (.unique_ptr T) = true →
        bind_col_in_db E stmt inx (.unique_ptr T) none = bind_col_in_db E stmt inx .nullptr_t ()
          ∧ ∀ v : T.Val,
              bind_col_in_db E stmt inx (.unique_ptr T) (some v)
                = bind_col_in_db E stmt inx T v)
      ∧ bind_col_in_db E stmt inx .nullptr_t ()
          = .ok ⟨[.sqlite3_bind_null inx], stmt.respond (.sqlite3_bind_null inx)⟩ := by
  refine ⟨?_, ?_, ?_⟩
  · intro h
    refine ⟨?_, fun v => ?_⟩
    · simp [bind_col_in_db, h]
    · simp [bind_col_in_db, h]
  · intro h
    refine ⟨?_, fun v => ?_⟩
    · simp [bind_col_in_db, h]
    · simp [bind_col_in_db, h]
  · simp [bind_col_in_db, bind_col_in_db_nullptr, sqlite3_bind_null, sqlite3_stmt.issue]

/-- C10, the code at the failing input: `optional<std::variant<int,
std::string>>` is a registered type, its held value has a binder that issues
`sqlite3_bind_int`, and the extractor handles the same nesting; but binding
the optional does not compile, whether it holds a value or is empty, because
the call `bind_col_in_db(stmt, inx, *val)` in the body of the `optional`
overload sees only the overloads declared above it, and the one for
`std::variant` is declared below. For the same reason a `std::unique_ptr` of
an `optional` or of a `std::variant` cannot be bound, while the reverse
nesting, an `optional` of a `std::unique_ptr`, delegates as the claim says. -/
theorem nested_nullable_bind_does_not_compile :
    bind_col_in_db Env.sample (sqlite3_stmt.sample []) 1 (.optional (.variant [.int, .string]))
        (some (Sum.inl (5 : Int))) = .error .ill_formed
      ∧ bind_col_in_db Env.sample (sqlite3_stmt.sample []) 1
          (.optional (.variant [.int, .string])) none = .error .ill_formed
      ∧ bind_col_in_db Env.sample (sqlite3_stmt.sample []) 1 (.unique_ptr (.optional .int))
          (some (some (5 : Int))) = .error .ill_formed
      ∧ bind_col_in_db Env.sample (sqlite3_stmt.sample []) 1
          (.unique_ptr (.variant [.int, .string])) (some (Sum.inl (5 : Int)))
          = .error .ill_formed
      ∧ bind_col_in_db Env.sample (sqlite3_stmt.sample []) 1 (.variant [.int, .string])
          (Sum.inl (5 : Int)) = .ok ⟨[.sqlite3_bind_int 1 5], SQLITE_OK⟩
      ∧ is_sqlite_value (.optional (.variant [.int, .string])) = true
      ∧ (get_col_from_db Env.sample (sqlite3_stmt.sample [.integer 5]) 0
          (.optional (.variant [.int, .string]))).result = .ok (some (Sum.inl (5 : Int)))
      ∧ bind_col_in_db Env.sample (sqlite3_stmt.sample []) 1 (.optional (.unique_ptr .int))
          (some (some (5 : Int))) = .ok ⟨[.sqlite3_bind_int 1 5], SQLITE_OK⟩
      ∧ bind_col_in_db Env.sample (sqlite3_stmt.sample []) 1 (.optional .int)
          (some (5 : Int)) = .ok ⟨[.sqlite3_bind_int 1 5], SQLITE_OK⟩ :=
  ⟨rfl, rfl, rfl, rfl, rfl, rfl, rfl, rfl, rfl⟩

theorem disjunction_eq_true_iff (S : StorageClass) :
    ∀ Args : List HostType,
      disjunction Args S = true ↔ ∃ T ∈ Args, has_sqlite_type T S = true
  | [] => by simp [disjunction]
  | A :: Args => by
      simp [disjunction, disjunction_eq_true_iff S Args]

/-- C11: Capability closure. For every host type `T` and storage class `S`,
`has_sqlite_type<optional<T>, S>` and `has_sqlite_type<std::unique_ptr<T>, S>`
hold iff `S` is Null or `has_sqlite_type<T, S>` holds; for every list of
alternatives, `has_sqlite_type<std::variant<Args...>, S>` holds iff it holds
for some alternative. `T` and the alternatives range over all host types, so
nested composites are covered: an optional of a variant has the capabilities
of some alternative or Null, and a variant with optional alternatives has
Null as soon as it has an alternative. -/
theorem capability_closure (S : StorageClass) :
    (∀ T : HostType,
        (has_sqlite_type (.optional T) S = true ↔ (S = SQLITE_NULL ∨ has_sqlite_type T S = true))
        ∧ (has_sqlite_type (.unique_ptr T) S = true
            ↔ (S = SQLITE_NULL ∨ has_sqlite_type T S = true)))
    ∧ (∀ Args : List HostType,
        has_sqlite_type (.variant Args) S = true ↔ ∃ T ∈ Args, has_sqlite_type T S = true)
    ∧ (∀ Args : List HostType,
        has_sqlite_type (.optional (.variant Args)) S = true
          ↔ (S = SQLITE_NULL ∨ ∃ T ∈ Args, has_sqlite_type T S = true))
    ∧ (∀ (T : HostType) (Args : List HostType),
        has_sqlite_type (.variant (.optional T :: Args)) SQLITE_NULL = true) := by
  refine ⟨?_, ?_, ?_, ?_⟩
  · intro T
    constructor <;> simp [has_sqlite_type]
  · intro Args
    rw [has_sqlite_type, disjunction_eq_true_iff]
  · intro Args
    rw [has_sqlite_type, has_sqlite_type, Bool.or_eq_true, disjunction_eq_true_iff]
    simp
  · intro T Args
    simp [has_sqlite_type, disjunction]

mutual
theorem bind_col_in_db_one_call (E : Env) (stmt : sqlite3_stmt) (inx : Int) :
    (T : HostType) → bind_compiles T = true → (val : T.Val) →
      ∃ c : BindCall, bind_col_in_db E stmt inx T val = .ok ⟨[c], stmt.respond c⟩ ∧ c.inx = inx
  | .int, _, val => ⟨.sqlite3_bind_int inx val, by
      simp [bind_col_in_db, bind_col_in_db_int, sqlite3_bind_int, sqlite3_stmt.issue],
      rfl⟩
  | .sqlite_int64, _, val => ⟨.sqlite3_bind_int64 inx val, by
      simp [bind_col_in_db, bind_col_in_db_int64, sqlite3_bind_int64, sqlite3_stmt.issue],
      rfl⟩
  | .integral _ _, _, val => ⟨.sqlite3_bind_int64 inx (to_sqlite3_int64 val), by
      simp [bind_col_in_db, bind_col_in_db_integral, bind_col_in_db_int64, sqlite3_bind_int64,
        sqlite3_stmt.issue],
      rfl⟩
  | .bool, _, val => ⟨.sqlite3_bind_int64 inx (to_sqlite3_int64 (bool_to_int val)), by
      simp [bind_col_in_db, bind_col_in_db_integral, bind_col_in_db_int64, sqlite3_bind_int64,
        sqlite3_stmt.issue],
      rfl⟩
  | .float, _, val => ⟨.sqlite3_bind_double inx (E.widen val), by
      simp [bind_col_in_db, bind_col_in_db_float, sqlite3_bind_double, sqlite3_stmt.issue],
      rfl⟩
  | .double, _, val => ⟨.sqlite3_bind_double inx val, by
      simp [bind_col_in_db, bind_col_in_db_double, sqlite3_bind_double, sqlite3_stmt.issue],
      rfl⟩
  | .nullptr_t, _, _ => ⟨.sqlite3_bind_null inx, by
      simp [bind_col_in_db, bind_col_in_db_nullptr, sqlite3_bind_null, sqlite3_stmt.issue],
      rfl⟩
  | .string, _, val => ⟨.sqlite3_bind_text inx (c_str val) (-1), by
      simp [bind_col_in_db, bind_col_in_db_string, sqlite3_bind_text, sqlite3_stmt.issue],
      rfl⟩
  | .u16string, _, val => ⟨.sqlite3_bind_text16 inx (c_str val) (-1), by
      simp [bind_col_in_db, bind_col_in_db_u16string, sqlite3_bind_text16, sqlite3_stmt.issue],
      rfl⟩
  | .vector k, _, vec =>
      ⟨.sqlite3_bind_blob inx (StdVector.data vec)
          (wrapSigned 32 ((StdVector.size vec * k : Nat) : Int)), by
        simp [bind_col_in_db, bind_col_in_db_vector, sqlite3_bind_blob, sqlite3_stmt.issue],
        rfl⟩
  | .blob_t, _, blob => ⟨.sqlite3_bind_blob inx (Prod.fst blob) (Prod.snd blob), by
      simp [bind_col_in_db, bind_col_in_db_blob, sqlite3_bind_blob, sqlite3_stmt.issue],
      rfl⟩
  | .unique_ptr T, h, val => by
      have hT : bind_compiles T = true := by
        simp only [bind_compiles, Bool.and_eq_true] at h
        exact h.2
      cases hv : (val : Option T.Val) with
      | none =>
        exact ⟨.sqlite3_bind_null inx, by
          change bind_col_in_db E stmt inx (.unique_ptr T) (none : Option T.Val) = _
          rw [bind_col_in_db, if_pos h]
          simp [bind_col_in_db_nullptr, sqlite3_bind_null, sqlite3_stmt.issue],
          rfl⟩
      | some x =>
        obtain ⟨c, hc, hi⟩ := bind_col_in_db_one_call E stmt inx T hT x
        exact ⟨c, by
          change bind_col_in_db E stmt inx (.unique_ptr T) (some x : Option T.Val) = _
          rw [bind_col_in_db, if_pos h]
          exact hc, hi⟩
  | .optional T, h, val => by
      have hT : bind_compiles T = true := by
        simp only [bind_compiles, Bool.and_eq_true] at h
        exact h.2
      cases hv : (val : Option T.Val) with
      | none =>
        exact ⟨.sqlite3_bind_null inx, by
          change bind_col_in_db E stmt inx (.optional T) (none : Option T.Val) = _
          rw [bind_col_in_db, if_pos h]
          simp [bind_col_in_db_nullptr, sqlite3_bind_null, sqlite3_stmt.issue],
          rfl⟩
      | some x =>
        obtain ⟨c, hc, hi⟩ := bind_col_in_db_one_call E stmt inx T hT x
        exact ⟨c, by
          change bind_col_in_db E stmt inx (.optional T) (some x : Option T.Val) = _
          rw [bind_col_in_db, if_pos h]
          exact hc, hi⟩
  | .variant Args, h, val => by
      obtain ⟨c, hc, hi⟩ := bind_col_in_db_visit_one_call E stmt inx Args
        (by simpa [bind_compiles] using h) val
      exact ⟨c, by rw [bind_col_in_db, if_pos h, hc], hi⟩
theorem bind_col_in_db_visit_one_call (E : Env) (stmt : sqlite3_stmt) (inx : Int) :
    (Args : List HostType) → all_bind_compile Args = true → (val : Alt Args) →
      ∃ c : BindCall,
        bind_col_in_db_visit E stmt inx Args val = .ok ⟨[c], stmt.respond c⟩ ∧ c.inx = inx
  | [], _, val => nomatch (val : Empty)
  | T :: Args, h, val => by
      simp only [all_bind_compile, Bool.and_eq_true] at h
      cases hv : (val : T.Val ⊕ Alt Args) with
      | inl x =>
        obtain ⟨c, hc, hi⟩ := bind_col_in_db_one_call E stmt inx T h.1 x
        exact ⟨c, by
          change bind_col_in_db_visit E stmt inx (T :: Args) (Sum.inl x : T.Val ⊕ Alt Args) = _
          rw [bind_col_in_db_visit, hc], hi⟩
      | inr r =>
        obtain ⟨c, hc, hi⟩ := bind_col_in_db_visit_one_call E stmt inx Args h.2 r
        exact ⟨c, by
          change bind_col_in_db_visit E stmt inx (T :: Args) (Sum.inr r : T.Val ⊕ Alt Args) = _
          rw [bind_col_in_db_visit, hc], hi⟩
end

/-- Status pass-through where the binder compiles: for every host type whose
binder compiles (the integers forwarded through the 64-bit path, optional,
`unique_ptr` and variant included) and every value of it, `bind_col_in_db`
issues exactly one engine bind call, on the statement and the index it was
given, and returns the status the engine answered to that call, whatever it
is. -/
theorem bind_status_pass_through (E : Env) (stmt : sqlite3_stmt) (inx : Int) (T : HostType)
    (hT : bind_compiles T = true) (val : T.Val) :
    ∃ (c : BindCall) (r : BindResult),
      bind_col_in_db E stmt inx T val = .ok r
        ∧ r.calls = [c]
        ∧ c.inx = inx
        ∧ r.status = stmt.respond c := by
  obtain ⟨c, hc, hi⟩ := bind_col_in_db_one_call E stmt inx T hT val
  exact ⟨c, _, hc, rfl, hi, rfl⟩

/-- C14, the code at the failing input: for a `std::unique_ptr<optional<int>>`,
which is a registered type, `bind_col_in_db` issues no bind call and returns no
status, whatever the statement, the index, the engine response and the value:
the call does not compile, because the body of the `std::unique_ptr` overload
cannot see the overload for `optional`, which is declared below it. The same
holds for an `optional` or a `std::unique_ptr` of a `std::variant`. -/
theorem nested_bind_issues_no_call :
    is_sqlite_value (.unique_ptr (.optional .int)) = true
      ∧ bind_compiles (.unique_ptr (.optional .int)) = false
      ∧ (∀ (E : Env) (stmt : sqlite3_stmt) (inx : Int) (val : Option (Option Int))
          (r : BindResult),
          bind_col_in_db E stmt inx (.unique_ptr (.optional .int)) val ≠ .ok r)
      ∧ (∀ (E : Env) (stmt : sqlite3_stmt) (inx : Int) (val : Option (Int ⊕ Empty))
          (r : BindResult),
          bind_col_in_db E stmt inx (.optional (.variant [.int])) val ≠ .ok r)
      ∧ (∀ (E : Env) (stmt : sqlite3_stmt) (inx : Int) (val : Option (Int ⊕ Empty))
          (r : BindResult),
          bind_col_in_db E stmt inx (.unique_ptr (.variant [.int])) val ≠ .ok r)
      ∧ bind_col_in_db Env.sample (sqlite3_stmt.sample []) 1 (.unique_ptr (.optional .int))
          (some (some (5 : Int))) = .error .ill_formed
      ∧ bind_col_in_db Env.sample (sqlite3_stmt.sample []) 1 (.optional .int)
          (some (5 : Int)) = .ok ⟨[.sqlite3_bind_int 1 5], SQLITE_OK⟩ := by
  refine ⟨rfl, rfl, ?_, ?_, ?_, rfl, rfl⟩
  · intro E stmt inx val r
    simp [bind_col_in_db, bind_compiles, bind_declared_for_unique_ptr,
      bind_declared_for_optional]
  · intro E stmt inx val r
    simp [bind_col_in_db, bind_compiles, bind_declared_for_unique_ptr,
      bind_declared_for_optional]
  · intro E stmt inx val r
    simp [bind_col_in_db, bind_compiles, bind_declared_for_unique_ptr,
      bind_declared_for_optional]

theorem basic_string_log (p : Ptr) (n : Int) : (basic_string p n).log = [] := by
  unfold basic_string
  split
  · rfl
  · split
    · split <;> rfl
    · split <;> rfl

theorem vector_from_range_log (k : Nat) (p : Ptr) (n : Nat) :
    (vector_from_range k p n).log = [] := by
  unfold vector_from_range
  split
  · split <;> rfl
  · split <;> rfl

theorem Read.at_column_map {α β : Type} (inx : Int) (f : α → β) (r : Read α) :
    Read.at_column inx (Read.map f r) = Read.map f (Read.at_column inx r) := by
  unfold Read.map Read.at_column
  cases h : r.result <;> simp

theorem Read.at_column_bind_type {β : Type} (stmt : sqlite3_stmt) (inx : Int)
    (f : StorageClass → Read β) :
    Read.at_column inx ((sqlite3_value_type (stmt.column inx)).bind f)
      = (sqlite3_column_type stmt inx).bind (fun t => Read.at_column inx (f t)) := by
  simp [Read.bind_type_col, Read.bind_type_val, Read.at_column, Access.at_column]

theorem get_int64_at_column (E : Env) (stmt : sqlite3_stmt) (inx : Int) :
    get_col_from_db_int64 E stmt inx
      = Read.at_column inx (get_val_from_db_int64 E (stmt.column inx)) := by
  rw [get_val_from_db_int64, Read.at_column_bind_type, get_col_from_db_int64]
  congr 1
  funext t
  split <;> simp [Read.at_column, Read.pure, sqlite3_column_int64, sqlite3_value_int64,
    Access.at_column]

mutual
theorem get_col_eq_get_val (E : Env) (stmt : sqlite3_stmt) (inx : Int) :
    (T : HostType) →
      get_col_from_db E stmt inx T = Read.at_column inx (get_val_from_db E (stmt.column inx) T)
  | .int => by
      rw [get_val_from_db, get_val_from_db_int, Read.at_column_bind_type, get_col_from_db,
        get_col_from_db_int]
      congr 1
      funext t
      split <;> simp [Read.at_column, Read.pure, sqlite3_column_int, sqlite3_value_int,
        Access.at_column]
  | .sqlite_int64 => by
      rw [get_val_from_db, get_col_from_db, get_int64_at_column]
  | .integral _ _ => by
      rw [get_val_from_db, get_col_from_db, get_col_from_db_integral, get_val_from_db_integral,
        get_int64_at_column, Read.at_column_map]
  | .bool => by
      rw [get_val_from_db, get_col_from_db, get_col_from_db_bool, get_val_from_db_bool,
        get_int64_at_column, Read.at_column_map]
  | .float => by
      rw [get_val_from_db, get_val_from_db_float, Read.at_column_map, Read.at_column_bind_type,
        get_col_from_db, get_col_from_db_float]
      congr 2
      funext t
      split <;> simp [Read.at_column, Read.pure, sqlite3_column_double, sqlite3_value_double,
        Access.at_column]
  | .double => by
      rw [get_val_from_db, get_val_from_db_double, Read.at_column_bind_type, get_col_from_db,
        get_col_from_db_double]
      congr 1
      funext t
      split <;> simp [Read.at_column, Read.pure, sqlite3_column_double, sqlite3_value_double,
        Access.at_column]
  | .nullptr_t => by
      simp [get_val_from_db, get_col_from_db, Read.at_column, Read.fail]
  | .string => by
      rw [get_val_from_db, get_val_from_db_string, Read.at_column_bind_type, get_col_from_db,
        get_col_from_db_string]
      congr 1
      funext t
      split <;> simp [Read.at_column, Read.pure, Read.bind, sqlite3_column_text,
        sqlite3_value_text, sqlite3_column_bytes, sqlite3_value_bytes, Access.at_column,
        basic_string_log]
  | .u16string => by
      rw [get_val_from_db, get_val_from_db_u16string, Read.at_column_bind_type, get_col_from_db,
        get_col_from_db_u16string]
      congr 1
      funext t
      split <;> simp [Read.at_column, Read.pure, Read.bind, sqlite3_column_text16,
        sqlite3_value_text16, sqlite3_column_bytes16, sqlite3_value_bytes16, Access.at_column,
        basic_string_log]
  | .vector _ => by
      rw [get_val_from_db, get_val_from_db_vector, Read.at_column_bind_type, get_col_from_db,
        get_col_from_db_vector]
      congr 1
      funext t
      split <;> simp [Read.at_column, Read.pure, Read.bind, sqlite3_column_blob,
        sqlite3_value_blob, sqlite3_column_bytes, sqlite3_value_bytes, Access.at_column,
        vector_from_range_log]
  | .blob_t => by
      rw [get_val_from_db, get_val_from_db_blob, Read.at_column_bind_type, get_col_from_db,
        get_col_from_db_blob]
      congr 1
      funext t
      split <;> simp [Read.at_column, Read.pure, Read.bind, sqlite3_column_blob,
        sqlite3_value_blob, sqlite3_column_bytes, sqlite3_value_bytes, Access.at_column]
  | .unique_ptr T => by
      rw [get_val_from_db, Read.at_column_bind_type, get_col_from_db]
      congr 1
      funext t
      split
      · simp [Read.at_column, Read.pure]
      · rw [Read.at_column_map, get_col_eq_get_val E stmt inx T]
  | .optional T => by
      rw [get_val_from_db, Read.at_column_bind_type, get_col_from_db]
      congr 1
      funext t
      split
      · simp [Read.at_column, Read.pure]
      · rw [Read.at_column_map, get_col_eq_get_val E stmt inx T]
  | .variant Args => by
      rw [get_val_from_db, Read.at_column_bind_type, get_col_from_db]
      congr 1
      funext t
      cases t <;> simp only [variant_select_type_eq E stmt inx _ Args]
theorem variant_select_type_eq (E : Env) (stmt : sqlite3_stmt) (inx : Int) (S : StorageClass) :
    (Args : List HostType) →
      variant_select_type_col E stmt inx S Args
        = Read.at_column inx (variant_select_type_val E (stmt.column inx) S Args)
  | [] => by
      simp [variant_select_type_col, variant_select_type_val, Read.at_column, Read.fail]
  | T :: Args => by
      rw [variant_select_type_col, variant_select_type_val]
      split
      · rw [Read.at_column_map, get_col_eq_get_val E stmt inx T]
      · rw [Read.at_column_map, variant_select_type_eq E stmt inx S Args]
end

theorem objects_length (k : Nat) : ∀ (n : Nat) (mem : List Nat), (objects k n mem).length = n
  | 0, _ => rfl
  | n + 1, mem => by simp [objects, objects_length k n]

theorem objects_sized (k : Nat) :
    ∀ (n : Nat) (mem : List Nat), n * k ≤ mem.length → ∀ e ∈ objects k n mem, e.length = k
  | 0, _, _, e, he => by simp [objects] at he
  | n + 1, mem, h, e, he => by
      have hk : k ≤ mem.length := by
        have : k ≤ (n + 1) * k := Nat.le_mul_of_pos_left k (Nat.succ_pos n)
        omega
      simp only [objects, List.mem_cons] at he
      rcases he with he | he
      · rw [he, List.length_take, Nat.min_eq_left hk]
      · refine objects_sized k n (mem.drop k) ?_ e he
        rw [List.length_drop, Nat.succ_mul] at *
        omega

theorem objects_flatten_take (k : Nat) :
    ∀ (n : Nat) (mem : List Nat), n * k ≤ mem.length →
      (objects k n mem).flatten = mem.take (n * k)
  | 0, mem, _ => by simp [objects]
  | n + 1, mem, h => by
      have h2 : n * k ≤ (mem.drop k).length := by
        rw [List.length_drop, Nat.succ_mul] at *
        omega
      rw [objects, List.flatten_cons, objects_flatten_take k n (mem.drop k) h2, Nat.succ_mul,
        Nat.add_comm (n * k) k, List.take_add]

theorem get_val_vector_not_null (E : Env) (value : sqlite3_value) (k : Nat)
    (hv : value.type ≠ SQLITE_NULL) :
    get_val_from_db E value (.vector k)
      = ⟨[.value .type, .value .bytes, .value .blob],
          .ok ⟨objects k ((value.utf8 E).length / k) (value.utf8 E),
            decide ((value.utf8 E).length / k ≠ 0)⟩⟩ := by
  rw [get_val_from_db, get_val_from_db_vector, Read.bind_type_val, if_neg hv]
  simp only [Read.bind, sqlite3_value_bytes, sqlite3_value_blob, Value.asBytes, Value.asBlob,
    Int.toNat_ofNat]
  by_cases hb : value.utf8 E = []
  · simp [hb, vector_from_range, Read.pure, objects]
  · have hle : (value.utf8 E).length / k * k ≤ (value.utf8 E).length := Nat.div_mul_le_self _ _
    simp [hb, vector_from_range, Read.pure, hle]

/-- C16: Blob remainder truncation. Let a column (or value handle) hold a
value that is not Null, let `b` be the `L` bytes the engine exposes for it
(for a Blob, the blob itself) and let `k >= 1` be `sizeof(T)`. Extraction as
`std::vector<T>` ends without error and returns exactly `L / k` elements of
`k` bytes each, which are the first `(L / k) * k` bytes of `b` in order; the
trailing `L mod k` bytes are dropped, and `L < k` gives the empty sequence. -/
theorem blob_remainder_truncation (E : Env) (k : Nat) (hk : 1 ≤ k) (stmt : sqlite3_stmt)
    (inx : Int) (hv : (stmt.column inx).type ≠ SQLITE_NULL) :
    ∃ r : StdVector,
      (get_col_from_db E stmt inx (.vector k)).result = .ok r
        ∧ (get_val_from_db E (stmt.column inx) (.vector k)).result = .ok r
        ∧ r.elems.length = ((stmt.column inx).utf8 E).length / k
        ∧ (∀ e ∈ r.elems, e.length = k)
        ∧ r.elems.flatten
            = ((stmt.column inx).utf8 E).take (((stmt.column inx).utf8 E).length / k * k)
        ∧ (((stmt.column inx).utf8 E).drop (((stmt.column inx).utf8 E).length / k * k)).length
            = ((stmt.column inx).utf8 E).length % k
        ∧ ((stmt.column inx).utf8 E).length % k < k
        ∧ (((stmt.column inx).utf8 E).length < k → r.elems = [])
        ∧ (∀ b : List Nat, stmt.column inx = .blob b → (stmt.column inx).utf8 E = b) := by
  have hval := get_val_vector_not_null E (stmt.column inx) k hv
  have hcol := get_col_eq_get_val E stmt inx (.vector k)
  have hle : ((stmt.column inx).utf8 E).length / k * k ≤ ((stmt.column inx).utf8 E).length :=
    Nat.div_mul_le_self _ _
  refine ⟨⟨objects k (((stmt.column inx).utf8 E).length / k) ((stmt.column inx).utf8 E),
    decide (((stmt.column inx).utf8 E).length / k ≠ 0)⟩, ?_, ?_, ?_, ?_, ?_, ?_, ?_, ?_, ?_⟩
  · rw [hcol, Read.at_column, hval]
  · rw [hval]
  · exact objects_length k _ _
  · exact objects_sized k _ _ hle
  · exact objects_flatten_take k _ _ hle
  · rw [List.length_drop]
    have := Nat.div_add_mod' ((stmt.column inx).utf8 E).length k
    omega
  · exact Nat.mod_lt _ (by omega)
  · intro hlt
    show objects k (((stmt.column inx).utf8 E).length / k) _ = []
    rw [Nat.div_eq_of_lt hlt]
    rfl
  · intro b hb
    rw [hb]
    rfl

/-- Witness for C16: a blob of 6 bytes read as a vector of 4-byte elements
gives one element, the first 4 bytes. -/
theorem blob_remainder_truncation_witness :
    (1 : Nat) ≤ 4
      ∧ (sqlite3_stmt.column (sqlite3_stmt.sample [.blob [1, 2, 3, 4, 5, 6]]) 0).type
          ≠ SQLITE_NULL
      ∧ (get_col_from_db Env.sample (sqlite3_stmt.sample [.blob [1, 2, 3, 4, 5, 6]]) 0
            (.vector 4)).result = .ok ⟨[[1, 2, 3, 4]], true⟩
      ∧ ∃ r : StdVector,
          (get_col_from_db Env.sample (sqlite3_stmt.sample [.blob [1, 2, 3, 4, 5, 6]]) 0
              (.vector 4)).result = .ok r
            ∧ r.elems.length = 6 / 4 :=
  ⟨by decide, by decide, rfl,
   (blob_remainder_truncation Env.sample 4 (by decide)
      (sqlite3_stmt.sample [.blob [1, 2, 3, 4, 5, 6]]) 0 (by decide)).imp
      (fun _ h => ⟨h.1, h.2.2.1⟩)⟩

theorem wrapSigned_inRange (w : Nat) (hw : 1 ≤ w) (v : Int) : InRange true w (wrapSigned w v) := by
  unfold InRange wrapSigned
  simp only [if_true]
  rw [if_neg (by omega)]
  have hp : (2 : Int) ^ w = 2 * 2 ^ (w - 1) := by
    rw [← pow_succ']
    congr 1
    omega
  have hpos : (0 : Int) < 2 ^ w := by positivity
  have h1 := Int.emod_nonneg (v + 2 ^ (w - 1)) (ne_of_gt hpos)
  have h2 := Int.emod_lt_of_pos (v + 2 ^ (w - 1)) hpos
  constructor <;> omega

theorem wrapUnsigned_inRange (w : Nat) (v : Int) : InRange false w (wrapUnsigned w v) := by
  unfold InRange wrapUnsigned
  simp only [Bool.false_eq_true, if_false]
  have hpos : (0 : Int) < 2 ^ w := by positivity
  exact ⟨Int.emod_nonneg v (ne_of_gt hpos), Int.emod_lt_of_pos v hpos⟩

theorem to_integral_inRange (signed : Bool) (w : Nat) (hw : 1 ≤ w) (v : Int) :
    InRange signed w (to_integral signed w v) := by
  unfold to_integral
  cases signed with
  | true => simpa using wrapSigned_inRange w hw v
  | false => simpa using wrapUnsigned_inRange w v

theorem to_integral_emod (signed : Bool) (w : Nat) (hw : 1 ≤ w) (v : Int) :
    to_integral signed w v % 2 ^ w = v % 2 ^ w := by
  unfold to_integral
  cases signed with
  | true =>
    simp only [if_true]
    exact wrapSigned_emod w (by omega) v _ (dvd_refl _)
  | false =>
    simp only [Bool.false_eq_true, if_false, wrapUnsigned]
    exact Int.emod_emod_of_dvd v (dvd_refl _)

theorem inRange_congruent_unique (signed : Bool) (w : Nat) (hw : 1 ≤ w) (x y : Int)
    (hx : InRange signed w x) (hy : InRange signed w y) (h : x % 2 ^ w = y % 2 ^ w) : x = y := by
  have hp : (2 : Int) ^ w = 2 * 2 ^ (w - 1) := by
    rw [← pow_succ']
    congr 1
    omega
  have hpos : (0 : Int) < 2 ^ (w - 1) := by positivity
  have hd : (2 : Int) ^ w ∣ x - y :=
    Int.dvd_of_emod_eq_zero (Int.emod_eq_emod_iff_emod_sub_eq_zero.1 h)
  obtain ⟨q, hq⟩ := hd
  unfold InRange at hx hy
  cases signed with
  | true =>
    simp only [if_true] at hx hy
    have hq0 : q = 0 := by
      by_contra hne
      rcases lt_or_gt_of_ne hne with hlt | hgt
      · have : 2 ^ w * q ≤ 2 ^ w * (-1) := by
          apply mul_le_mul_of_nonneg_left (by omega) (by positivity)
        omega
      · have : 2 ^ w * 1 ≤ 2 ^ w * q := by
          apply mul_le_mul_of_nonneg_left (by omega) (by positivity)
        omega
    rw [hq0] at hq
    omega
  | false =>
    simp only [Bool.false_eq_true, if_false] at hx hy
    have hq0 : q = 0 := by
      by_contra hne
      rcases lt_or_gt_of_ne hne with hlt | hgt
      · have : 2 ^ w * q ≤ 2 ^ w * (-1) := by
          apply mul_le_mul_of_nonneg_left (by omega) (by positivity)
        omega
      · have : 2 ^ w * 1 ≤ 2 ^ w * q := by
          apply mul_le_mul_of_nonneg_left (by omega) (by positivity)
        omega
    rw [hq0] at hq
    omega

theorem get_col_bool_integer (E : Env) (cur : sqlite3_stmt) (col : Int) (v : Int)
    (h : cur.column col = .integer v) :
    get_col_from_db E cur col .bool
      = ⟨[.column .type col, .column .int64 col], .ok (int_to_bool v)⟩ := by
  simp [get_col_from_db, get_col_from_db_bool, get_col_from_db_int64, Read.bind, Read.map,
    sqlite3_column_type, sqlite3_column_int64, h, Value.type, Value.asInt64]

/-- C18 (as amended): Integer narrowing on extraction. For every stored
Integer-class value `v`, `get_col_from_db` as `int` returns the one `int`
congruent to `v` modulo `2^32`; as any other integral type of `bits >= 1` bits,
`bool` apart, it returns the one value of that type congruent to `v` modulo
`2^bits` (the low bits of `v` in the signedness of the type); as
`sqlite_int64` it returns `v` itself. As `bool` it returns `true` exactly when
`v` is not zero, which is the C++ conversion to `bool` and not the low bit. -/
theorem integer_narrowing (E : Env) (stmt : sqlite3_stmt) (inx : Int) (v : Int)
    (h : stmt.column inx = .integer v) :
    (∃ r : Int, (get_col_from_db E stmt inx .int).result = .ok r
        ∧ InRange true 32 r ∧ r % 2 ^ 32 = v % 2 ^ 32
        ∧ ∀ y : Int, InRange true 32 y → y % 2 ^ 32 = v % 2 ^ 32 → y = r)
    ∧ (∀ (signed : Bool) (bits : Nat), 1 ≤ bits →
        ∃ r : Int, (get_col_from_db E stmt inx (.integral signed bits)).result = .ok r
          ∧ InRange signed bits r ∧ r % 2 ^ bits = v % 2 ^ bits
          ∧ ∀ y : Int, InRange signed bits y → y % 2 ^ bits = v % 2 ^ bits → y = r)
    ∧ (get_col_from_db E stmt inx .sqlite_int64).result = .ok v
    ∧ (get_col_from_db E stmt inx .bool).result = .ok (decide (v ≠ 0)) := by
  refine ⟨?_, ?_, ?_, ?_⟩
  · refine ⟨wrapSigned 32 v, by rw [get_col_int_integer E stmt inx v h],
      wrapSigned_inRange 32 (by decide) v, wrapSigned_emod 32 (by decide) v _ (dvd_refl _), ?_⟩
    intro y hy hc
    exact inRange_congruent_unique true 32 (by decide) y _ hy
      (wrapSigned_inRange 32 (by decide) v)
      (hc.trans (wrapSigned_emod 32 (by decide) v _ (dvd_refl _)).symm)
  · intro signed bits hb
    refine ⟨to_integral signed bits v, by rw [get_col_integral_integer E stmt inx signed bits v h],
      to_integral_inRange signed bits hb v, to_integral_emod signed bits hb v, ?_⟩
    intro y hy hc
    exact inRange_congruent_unique signed bits hb y _ hy (to_integral_inRange signed bits hb v)
      (hc.trans (to_integral_emod signed bits hb v).symm)
  · rw [get_col_int64_integer E stmt inx v h]
  · rw [get_col_bool_integer E stmt inx v h]
    by_cases hv : v = 0
    · simp [int_to_bool, hv]
    · simp only [int_to_bool, ne_eq, hv, not_false_eq_true, decide_True]
      exact congrArg _ (bne_iff_ne.2 hv)

/-- Witness for C18: the stored value 300 read as an unsigned 8-bit integer is 44. -/
theorem integer_narrowing_witness :
    sqlite3_stmt.column (sqlite3_stmt.sample [.integer 300]) 0 = .integer 300
      ∧ (get_col_from_db Env.sample (sqlite3_stmt.sample [.integer 300]) 0
            (.integral false 8)).result = .ok (44 : Int)
      ∧ (get_col_from_db Env.sample (sqlite3_stmt.sample [.integer 300]) 0
            .sqlite_int64).result = .ok (300 : Int) :=
  ⟨rfl, rfl,
   (integer_narrowing Env.sample (sqlite3_stmt.sample [.integer 300]) 0 300 rfl).2.2.1⟩

/-- C18, counterexample: the stored integer 2 is congruent to 0 modulo `2^1`,
so its low bit read as a boolean is `false`, but extraction as `bool` returns
`true`. -/
theorem bool_extraction_is_not_low_bit :
    (get_col_from_db Env.sample (sqlite3_stmt.sample [.integer 2]) 0 .bool).result = .ok true
      ∧ (get_val_from_db Env.sample (.integer 2) .bool).result = .ok true
      ∧ (2 : Int) % 2 ^ 1 = 0
      ∧ bool_to_int true % 2 ^ 1 ≠ (2 : Int) % 2 ^ 1 :=
  ⟨rfl, rfl, by decide, by decide⟩

theorem get_col_not_thrown (E : Env) (stmt : sqlite3_stmt) (inx : Int) :
    (T : HostType) → variant_free T = true → ∀ e : Exception,
      (get_col_from_db E stmt inx T).result ≠ .error (.thrown e)
  | .unique_ptr T, h, e => by
      simp only [get_col_from_db, Read.bind_type_col]
      split
      · simp [Read.pure]
      · rw [ne_eq, Read.map_thrown]
        exact get_col_not_thrown E stmt inx T (by simpa [variant_free] using h) e
  | .optional T, h, e => by
      simp only [get_col_from_db, Read.bind_type_col]
      split
      · simp [Read.pure]
      · rw [ne_eq, Read.map_thrown]
        exact get_col_not_thrown E stmt inx T (by simpa [variant_free] using h) e
  | .variant _, h, _ => by simp [variant_free] at h
  | .int, _, e => fun h => by
      revert h
      simp only [get_col_from_db, get_col_from_db_int, Read.bind_type_col]
      split <;> simp [Read.pure, sqlite3_column_int]
  | .sqlite_int64, _, e => fun h => by
      revert h
      simp only [get_col_from_db, get_col_from_db_int64, Read.bind_type_col]
      split <;> simp [Read.pure, sqlite3_column_int64]
  | .integral _ _, _, e => fun h => by
      revert h
      simp only [get_col_from_db, get_col_from_db_integral, get_col_from_db_int64,
        Read.bind_type_col, Read.map_thrown]
      split <;> simp [Read.pure, sqlite3_column_int64]
  | .bool, _, e => fun h => by
      revert h
      simp only [get_col_from_db, get_col_from_db_bool, get_col_from_db_int64,
        Read.bind_type_col, Read.map_thrown]
      split <;> simp [Read.pure, sqlite3_column_int64]
  | .float, _, e => fun h => by
      revert h
      simp only [get_col_from_db, get_col_from_db_float, Read.bind_type_col, Read.map_thrown]
      split <;> simp [Read.pure, sqlite3_column_double]
  | .double, _, e => fun h => by
      revert h
      simp only [get_col_from_db, get_col_from_db_double, Read.bind_type_col]
      split <;> simp [Read.pure, sqlite3_column_double]
  | .nullptr_t, _, e => by
      simp [get_col_from_db, Read.fail]
  | .string, _, e => fun h => by
      revert h
      simp only [get_col_from_db, get_col_from_db_string, Read.bind_type_col]
      split
      · simp [Read.pure]
      · simp only [Read.bind, sqlite3_column_text, sqlite3_column_bytes]
        exact basic_string_not_thrown _ _ e
  | .u16string, _, e => fun h => by
      revert h
      simp only [get_col_from_db, get_col_from_db_u16string, Read.bind_type_col]
      split
      · simp [Read.pure]
      · simp only [Read.bind, sqlite3_column_text16, sqlite3_column_bytes16]
        exact basic_string_not_thrown _ _ e
  | .vector k, _, e => fun h => by
      revert h
      simp only [get_col_from_db, get_col_from_db_vector, Read.bind_type_col]
      split
      · simp [Read.pure]
      · simp only [Read.bind, sqlite3_column_blob, sqlite3_column_bytes]
        exact vector_from_range_not_thrown _ _ _ e
  | .blob_t, _, e => fun h => by
      revert h
      simp only [get_col_from_db, get_col_from_db_blob, Read.bind_type_col]
      split <;> simp [Read.pure, Read.bind, sqlite3_column_blob, sqlite3_column_bytes]

theorem get_col_string_ok (E : Env) (stmt : sqlite3_stmt) (inx : Int) :
    ∃ x, (get_col_from_db E stmt inx .string).result = .ok x := by
  simp only [get_col_from_db, get_col_from_db_string, Read.bind_type_col]
  split
  · exact ⟨_, rfl⟩
  · rename_i hn
    have hnn : ¬ ((((stmt.column inx).utf8 E).length : Int) < 0) := by omega
    have ht : (stmt.column inx).asText E = some ((stmt.column inx).utf8 E ++ [0]) := by
      cases hc : stmt.column inx <;> simp_all [Value.asText, Value.type]
    simp [Read.bind, sqlite3_column_text, sqlite3_column_bytes, ht, Value.asBytes, basic_string,
      hnn, Read.pure]

theorem get_col_ok (E : Env) (stmt : sqlite3_stmt) (inx : Int) :
    (T : HostType) → plain_extractable T = true →
      ∃ x, (get_col_from_db E stmt inx T).result = .ok x
  | .unique_ptr T, h => by
      simp only [get_col_from_db, Read.bind_type_col]
      split
      · exact ⟨_, rfl⟩
      · obtain ⟨x, hx⟩ := get_col_ok E stmt inx T (by simpa [plain_extractable] using h)
        exact ⟨some x, by rw [Read.map_eq, hx]; rfl⟩
  | .optional T, h => by
      simp only [get_col_from_db, Read.bind_type_col]
      split
      · exact ⟨_, rfl⟩
      · obtain ⟨x, hx⟩ := get_col_ok E stmt inx T (by simpa [plain_extractable] using h)
        exact ⟨some x, by rw [Read.map_eq, hx]; rfl⟩
  | .variant _, h => by simp [plain_extractable] at h
  | .nullptr_t, h => by simp [plain_extractable] at h
  | .u16string, h => by simp [plain_extractable] at h
  | .int, _ => by
      simp only [get_col_from_db, get_col_from_db_int, Read.bind_type_col]
      split <;> exact ⟨_, rfl⟩
  | .sqlite_int64, _ => by
      simp only [get_col_from_db, get_col_from_db_int64, Read.bind_type_col]
      split <;> exact ⟨_, rfl⟩
  | .integral _ _, _ => by
      simp only [get_col_from_db, get_col_from_db_integral, get_col_from_db_int64,
        Read.bind_type_col, Read.map_eq]
      split <;> exact ⟨_, rfl⟩
  | .bool, _ => by
      simp only [get_col_from_db, get_col_from_db_bool, get_col_from_db_int64,
        Read.bind_type_col, Read.map_eq]
      split <;> exact ⟨_, rfl⟩
  | .float, _ => by
      simp only [get_col_from_db, get_col_from_db_float, Read.bind_type_col, Read.map_eq]
      split <;> exact ⟨_, rfl⟩
  | .double, _ => by
      simp only [get_col_from_db, get_col_from_db_double, Read.bind_type_col]
      split <;> exact ⟨_, rfl⟩
  | .string, _ => get_col_string_ok E stmt inx
  | .vector k, _ => by
      by_cases hv : (stmt.column inx).type = SQLITE_NULL
      · simp only [get_col_from_db, get_col_from_db_vector, Read.bind_type_col, hv, if_true]
        exact ⟨_, rfl⟩
      · rw [get_col_eq_get_val, Read.at_column, get_val_vector_not_null E _ k hv]
        exact ⟨_, rfl⟩
  | .blob_t, _ => by
      simp only [get_col_from_db, get_col_from_db_blob, Read.bind_type_col]
      split <;> exact ⟨_, rfl⟩

/-- C13 (as amended): extraction is total where no TaggedUnion occurs. If no
`std::variant` occurs in the requested type at any depth, then for every
observed storage class neither `get_col_from_db` nor `get_val_from_db` raises
an exception; if moreover the type is built from the numeric scalars,
`std::string`, `std::vector` and `blob_t` by `optional` and `std::unique_ptr`,
both return a value. An exception that leaves an extraction is always
`errors::mismatch` with `SQLITE_MISMATCH`, the requested type then contains a
`std::variant`, and it does not have the observed class in its capability
set. -/
theorem extraction_total_without_variant (E : Env) (T : HostType) (stmt : sqlite3_stmt)
    (inx : Int) :
    (variant_free T = true → ∀ e : Exception,
        (get_col_from_db E stmt inx T).result ≠ .error (.thrown e)
          ∧ (get_val_from_db E (stmt.column inx) T).result ≠ .error (.thrown e))
    ∧ (plain_extractable T = true →
        ∃ x, (get_col_from_db E stmt inx T).result = .ok x
          ∧ (get_val_from_db E (stmt.column inx) T).result = .ok x)
    ∧ (∀ e : Exception, (get_col_from_db E stmt inx T).result = .error (.thrown e) →
        variant_free T = false
          ∧ has_sqlite_type T (stmt.column inx).type = false
          ∧ e = .mismatch "The value is unsupported by this variant." "" SQLITE_MISMATCH) := by
  have hcv : (get_val_from_db E (stmt.column inx) T).result
      = (get_col_from_db E stmt inx T).result := by
    rw [get_col_eq_get_val E stmt inx T, Read.at_column]
  refine ⟨?_, ?_, ?_⟩
  · intro h e
    rw [hcv]
    exact ⟨get_col_not_thrown E stmt inx T h e, get_col_not_thrown E stmt inx T h e⟩
  · intro h
    obtain ⟨x, hx⟩ := get_col_ok E stmt inx T h
    exact ⟨x, hx, by rw [hcv, hx]⟩
  · intro e he
    refine ⟨?_, (get_col_thrown E stmt inx T e he).1, (get_col_thrown E stmt inx T e he).2⟩
    cases hvf : variant_free T with
    | false => rfl
    | true => exact absurd he (get_col_not_thrown E stmt inx T hvf e)

/-- Witness for C13: `optional<std::vector<T>>` with 4-byte elements on an
Integer column returns a value. -/
theorem extraction_total_without_variant_witness :
    plain_extractable (.optional (.vector 4)) = true
      ∧ ∃ x, (get_col_from_db Env.sample (sqlite3_stmt.sample [.integer 5]) 0
            (.optional (.vector 4))).result = .ok x
          ∧ (get_val_from_db Env.sample
              (sqlite3_stmt.column (sqlite3_stmt.sample [.integer 5]) 0)
              (.optional (.vector 4))).result = .ok x :=
  ⟨rfl,
   (extraction_total_without_variant Env.sample (.optional (.vector 4))
      (sqlite3_stmt.sample [.integer 5]) 0).2.1 rfl⟩

/-- C13, counterexample: the requested type `optional<std::variant<int>>` is
an optional, not a variant, and yet its extraction from a Text column raises
`errors::mismatch`: the column is not Null, so the optional extracts its inner
variant, which has no alternative for Text. -/
theorem optional_of_variant_raises_mismatch :
    (get_col_from_db Env.sample (sqlite3_stmt.sample [.text [97]]) 0
        (.optional (.variant [.int]))).result
        = .error (.thrown (.mismatch "The value is unsupported by this variant." "" 20))
      ∧ (get_val_from_db Env.sample (.text [97]) (.optional (.variant [.int]))).result
        = .error (.thrown (.mismatch "The value is unsupported by this variant." "" 20))
      ∧ (get_col_from_db Env.sample (sqlite3_stmt.sample [.text [97]]) 0
          (.unique_ptr (.variant [.int]))).result
        = .error (.thrown (.mismatch "The value is unsupported by this variant." "" 20)) :=
  ⟨rfl, rfl, rfl⟩

theorem BindCall.as_result_produced (c : BindCall) : c.as_result.produced = c.stored := by
  cases c with
  | sqlite3_bind_text inx data n => cases data <;> rfl
  | sqlite3_bind_text16 inx data n => cases data <;> rfl
  | sqlite3_bind_blob inx data n => cases data <;> rfl
  | _ => rfl

theorem declared_for_optional_eq (T : HostType) :
    bind_declared_for_optional T = store_result_declared_for_optional T := by
  cases T <;> rfl

mutual
theorem has_result_body_compiles :
    (T : HostType) → has_result_body T = true →
      bind_compiles T = true ∧ store_result_compiles T = true
  | .int, _ => ⟨rfl, rfl⟩
  | .sqlite_int64, _ => ⟨rfl, rfl⟩
  | .integral _ _, h => by simp [has_result_body] at h
  | .bool, h => by simp [has_result_body] at h
  | .float, _ => ⟨rfl, rfl⟩
  | .double, _ => ⟨rfl, rfl⟩
  | .nullptr_t, _ => ⟨rfl, rfl⟩
  | .string, _ => ⟨rfl, rfl⟩
  | .u16string, _ => ⟨rfl, rfl⟩
  | .vector _, _ => ⟨rfl, rfl⟩
  | .blob_t, _ => ⟨rfl, rfl⟩
  | .unique_ptr _, h => by simp [has_result_body] at h
  | .optional T, h => by
      simp only [has_result_body, Bool.and_eq_true] at h
      have ih := has_result_body_compiles T h.2
      simp [bind_compiles, store_result_compiles, declared_for_optional_eq, h.1, ih.1, ih.2]
  | .variant Args, h => by
      have ih := all_have_result_body_compile Args (by simpa [has_result_body] using h)
      simp [bind_compiles, store_result_compiles, ih.1, ih.2]
theorem all_have_result_body_compile :
    (Args : List HostType) → all_have_result_body Args = true →
      all_bind_compile Args = true ∧ all_store_result_compile Args = true
  | [], _ => ⟨rfl, rfl⟩
  | T :: Args, h => by
      simp only [all_have_result_body, Bool.and_eq_true] at h
      have h1 := has_result_body_compiles T h.1
      have h2 := all_have_result_body_compile Args h.2
      simp [all_bind_compile, all_store_result_compile, h1.1, h1.2, h2.1, h2.2]
end

mutual
theorem store_result_eq_bind (E : Env) (stmt : sqlite3_stmt) (inx : Int) :
    (T : HostType) → has_result_body T = true → (val : T.Val) →
      ∃ r : BindResult, bind_col_in_db E stmt inx T val = .ok r
        ∧ store_result_in_db E T val = .ok (r.calls.map BindCall.as_result)
  | .int, _, val => ⟨_, by rw [bind_col_in_db], by
      simp [store_result_in_db, store_result_in_db_int, sqlite3_result_int,
        bind_col_in_db_int, sqlite3_bind_int, sqlite3_stmt.issue, BindCall.as_result]⟩
  | .sqlite_int64, _, val => ⟨_, by rw [bind_col_in_db], by
      simp [store_result_in_db, store_result_in_db_int64, sqlite3_result_int64,
        bind_col_in_db_int64, sqlite3_bind_int64, sqlite3_stmt.issue, BindCall.as_result]⟩
  | .integral _ _, h, _ => by simp [has_result_body] at h
  | .bool, h, _ => by simp [has_result_body] at h
  | .float, _, val => ⟨_, by rw [bind_col_in_db], by
      simp [store_result_in_db, store_result_in_db_float, sqlite3_result_double,
        bind_col_in_db_float, sqlite3_bind_double, sqlite3_stmt.issue, BindCall.as_result]⟩
  | .double, _, val => ⟨_, by rw [bind_col_in_db], by
      simp [store_result_in_db, store_result_in_db_double, sqlite3_result_double,
        bind_col_in_db_double, sqlite3_bind_double, sqlite3_stmt.issue, BindCall.as_result]⟩
  | .nullptr_t, _, _ => ⟨_, by rw [bind_col_in_db], by
      simp [store_result_in_db, store_result_in_db_nullptr, sqlite3_result_null,
        bind_col_in_db_nullptr, sqlite3_bind_null, sqlite3_stmt.issue, BindCall.as_result]⟩
  | .string, _, val => ⟨_, by rw [bind_col_in_db], by
      simp [store_result_in_db, store_result_in_db_string, sqlite3_result_text,
        bind_col_in_db_string, sqlite3_bind_text, sqlite3_stmt.issue, BindCall.as_result]⟩
  | .u16string, _, val => ⟨_, by rw [bind_col_in_db], by
      simp [store_result_in_db, store_result_in_db_u16string, sqlite3_result_text16,
        bind_col_in_db_u16string, sqlite3_bind_text16, sqlite3_stmt.issue, BindCall.as_result]⟩
  | .vector _, _, vec => ⟨_, by rw [bind_col_in_db], by
      simp [store_result_in_db, store_result_in_db_vector, sqlite3_result_blob,
        bind_col_in_db_vector, sqlite3_bind_blob, sqlite3_stmt.issue, BindCall.as_result]⟩
  | .blob_t, _, blob => ⟨_, by rw [bind_col_in_db], by
      simp [store_result_in_db, store_result_in_db_blob, sqlite3_result_blob,
        bind_col_in_db_blob, sqlite3_bind_blob, sqlite3_stmt.issue, BindCall.as_result]⟩
  | .unique_ptr _, h, _ => by simp [has_result_body] at h
  | .optional T, h, val => by
      have hc := has_result_body_compiles (.optional T) h
      have hT : has_result_body T = true := by
        simp only [has_result_body, Bool.and_eq_true] at h
        exact h.2
      cases hv : (val : Option T.Val) with
      | none =>
        refine ⟨bind_col_in_db_nullptr stmt inx, ?_, ?_⟩
        · change bind_col_in_db E stmt inx (.optional T) (none : Option T.Val) = _
          rw [bind_col_in_db, if_pos hc.1]
        · change store_result_in_db E (.optional T) (none : Option T.Val) = _
          rw [store_result_in_db, if_pos hc.2]
          simp [sqlite3_result_null, bind_col_in_db_nullptr, sqlite3_bind_null,
            sqlite3_stmt.issue, BindCall.as_result]
      | some x =>
        obtain ⟨r, hb, hs⟩ := store_result_eq_bind E stmt inx T hT x
        refine ⟨r, ?_, ?_⟩
        · change bind_col_in_db E stmt inx (.optional T) (some x : Option T.Val) = _
          rw [bind_col_in_db, if_pos hc.1]
          exact hb
        · change store_result_in_db E (.optional T) (some x : Option T.Val) = _
          rw [store_result_in_db, if_pos hc.2]
          exact hs
  | .variant Args, h, val => by
      have hc := has_result_body_compiles (.variant Args) h
      obtain ⟨r, hb, hs⟩ := store_result_visit_eq_bind E stmt inx Args
        (by simpa [has_result_body] using h) val
      exact ⟨r, by rw [bind_col_in_db, if_pos hc.1, hb],
        by rw [store_result_in_db, if_pos hc.2, hs]⟩
theorem store_result_visit_eq_bind (E : Env) (stmt : sqlite3_stmt) (inx : Int) :
    (Args : List HostType) → all_have_result_body Args = true → (val : Alt Args) →
      ∃ r : BindResult, bind_col_in_db_visit E stmt inx Args val = .ok r
        ∧ store_result_in_db_visit E Args val = .ok (r.calls.map BindCall.as_result)
  | [], _, val => nomatch (val : Empty)
  | T :: Args, h, val => by
      simp only [all_have_result_body, Bool.and_eq_true] at h
      cases hv : (val : T.Val ⊕ Alt Args) with
      | inl x =>
        obtain ⟨r, hb, hs⟩ := store_result_eq_bind E stmt inx T h.1 x
        refine ⟨r, ?_, ?_⟩
        · change bind_col_in_db_visit E stmt inx (T :: Args) (Sum.inl x : T.Val ⊕ Alt Args) = _
          rw [bind_col_in_db_visit]
          exact hb
        · change store_result_in_db_visit E (T :: Args) (Sum.inl x : T.Val ⊕ Alt Args) = _
          rw [store_result_in_db_visit]
          exact hs
      | inr r0 =>
        obtain ⟨r, hb, hs⟩ := store_result_visit_eq_bind E stmt inx Args h.2 r0
        refine ⟨r, ?_, ?_⟩
        · change bind_col_in_db_visit E stmt inx (T :: Args) (Sum.inr r0 : T.Val ⊕ Alt Args) = _
          rw [bind_col_in_db_visit]
          exact hb
        · change store_result_in_db_visit E (T :: Args) (Sum.inr r0 : T.Val ⊕ Alt Args) = _
          rw [store_result_in_db_visit]
          exact hs
end

/-- C12, the code at the failing input: for a `std::unique_ptr<int>`, null or
holding 5, there is no `store_result_in_db` to call, while `bind_col_in_db`
binds it, and the sibling wrapper `optional<int>` does have a result producer
that delegates to the producer of `int`. The only candidate left for a
`unique_ptr`, the template for the other integer types, is not viable for any
type, which also leaves a 64-bit `long` without a result producer (the call is
ambiguous) and sends a `short` to the `int` body, not to the 64-bit path that
the binder takes. -/
theorem unique_ptr_has_no_result_producer :
    store_result_in_db Env.sample (.unique_ptr .int) (some (5 : Int)) = .error .ill_formed
      ∧ store_result_in_db Env.sample (.unique_ptr .int) none = .error .ill_formed
      ∧ bind_col_in_db Env.sample (sqlite3_stmt.sample []) 1 (.unique_ptr .int)
          (some (5 : Int)) = .ok ⟨[.sqlite3_bind_int 1 5], SQLITE_OK⟩
      ∧ bind_col_in_db Env.sample (sqlite3_stmt.sample []) 1 (.unique_ptr .int) none
          = .ok ⟨[.sqlite3_bind_null 1], SQLITE_OK⟩
      ∧ store_result_in_db Env.sample (.optional .int) (some (5 : Int))
          = .ok [.sqlite3_result_int 5]
      ∧ store_result_in_db Env.sample (.optional .int) none = .ok [.sqlite3_result_null]
      ∧ store_result_in_db Env.sample (.integral true 64) (5 : Int) = .error .ill_formed
      ∧ store_result_in_db Env.sample (.integral true 16) (5 : Int)
          = .ok [.sqlite3_result_int 5]
      ∧ bind_col_in_db Env.sample (sqlite3_stmt.sample []) 1 (.integral true 16)
          (5 : Int) = .ok ⟨[.sqlite3_bind_int64 1 5], SQLITE_OK⟩ :=
  ⟨rfl, rfl, rfl, rfl, rfl, rfl, rfl, rfl, rfl⟩

theorem stored_bind_text16 (inx : Int) (s : List Nat) :
    (BindCall.sqlite3_bind_text16 inx (c_str s) (-1)).stored = some (.text16 (before_nul s)) := by
  simp [BindCall.stored, c_str, before_nul, takeWhile_terminated]

mutual
theorem bind_class_in_capabilities (E : Env) (stmt : sqlite3_stmt) (inx : Int) :
    (T : HostType) → bind_compiles T = true → (val : T.Val) → data_present T val →
      ∃ (c : BindCall) (v : Value), bind_col_in_db E stmt inx T val = .ok ⟨[c], stmt.respond c⟩
        ∧ c.stored = some v ∧ has_sqlite_type T v.type = true
  | .int, _, val, _ => ⟨.sqlite3_bind_int inx val, .integer val, by
      simp [bind_col_in_db, bind_col_in_db_int, sqlite3_bind_int, sqlite3_stmt.issue],
      rfl, rfl⟩
  | .sqlite_int64, _, val, _ => ⟨.sqlite3_bind_int64 inx val, .integer val, by
      simp [bind_col_in_db, bind_col_in_db_int64, sqlite3_bind_int64, sqlite3_stmt.issue],
      rfl, rfl⟩
  | .integral _ _, _, val, _ =>
      ⟨.sqlite3_bind_int64 inx (to_sqlite3_int64 val), .integer (to_sqlite3_int64 val), by
        simp [bind_col_in_db, bind_col_in_db_integral, bind_col_in_db_int64, sqlite3_bind_int64,
          sqlite3_stmt.issue],
        rfl, rfl⟩
  | .bool, _, val, _ =>
      ⟨.sqlite3_bind_int64 inx (to_sqlite3_int64 (bool_to_int val)),
        .integer (to_sqlite3_int64 (bool_to_int val)), by
        simp [bind_col_in_db, bind_col_in_db_integral, bind_col_in_db_int64, sqlite3_bind_int64,
          sqlite3_stmt.issue],
        rfl, rfl⟩
  | .float, _, val, _ => ⟨.sqlite3_bind_double inx (E.widen val), .float (E.widen val), by
      simp [bind_col_in_db, bind_col_in_db_float, sqlite3_bind_double, sqlite3_stmt.issue],
      rfl, rfl⟩
  | .double, _, val, _ => ⟨.sqlite3_bind_double inx val, .float val, by
      simp [bind_col_in_db, bind_col_in_db_double, sqlite3_bind_double, sqlite3_stmt.issue],
      rfl, rfl⟩
  | .nullptr_t, _, _, _ => ⟨.sqlite3_bind_null inx, .null, by
      simp [bind_col_in_db, bind_col_in_db_nullptr, sqlite3_bind_null, sqlite3_stmt.issue],
      rfl, rfl⟩
  | .string, _, val, _ => ⟨.sqlite3_bind_text inx (c_str val) (-1), .text (before_nul val), by
      simp [bind_col_in_db, bind_col_in_db_string, sqlite3_bind_text, sqlite3_stmt.issue],
      (stored_bind_text inx val).1, rfl⟩
  | .u16string, _, val, _ => ⟨.sqlite3_bind_text16 inx (c_str val) (-1), .text16 (before_nul val), by
      simp [bind_col_in_db, bind_col_in_db_u16string, sqlite3_bind_text16, sqlite3_stmt.issue],
      stored_bind_text16 inx val, rfl⟩
  | .vector k, _, vec, h => by
      simp only [data_present] at h
      obtain ⟨ha, hs, hN⟩ := h
      have hlen := length_flatten_of_sized k (StdVector.elems vec) hs
      have hnn : ¬ (((StdVector.size vec * k : Nat) : Int) < 0) := by omega
      refine ⟨.sqlite3_bind_blob inx (StdVector.data vec) ((StdVector.size vec * k : Nat) : Int),
        .blob (StdVector.elems vec).flatten, ?_, ?_, rfl⟩
      · simp only [bind_col_in_db, bind_col_in_db_vector, sqlite3_bind_blob, sqlite3_stmt.issue,
          wrapSigned_32_of_nat _ hN]
      · have hnat : (((StdVector.size vec * k : Nat) : Int)).toNat = StdVector.size vec * k :=
          Int.toNat_ofNat _
        rw [StdVector.data, if_pos ha]
        simp only [BindCall.stored]
        rw [if_neg hnn, hnat, StdVector.size, ← hlen, if_pos (le_refl _), List.take_length]
  | .blob_t, _, blob, h => by
      simp only [data_present] at h
      obtain ⟨mem, hm, h0, hl⟩ := h
      refine ⟨.sqlite3_bind_blob inx (Prod.fst blob) (Prod.snd blob),
        .blob (mem.take (Prod.snd blob).toNat), ?_, ?_, rfl⟩
      · simp [bind_col_in_db, bind_col_in_db_blob, sqlite3_bind_blob, sqlite3_stmt.issue]
      · rw [hm]
        simp [BindCall.stored, not_lt.2 h0, hl]
  | .unique_ptr T, hw, val, h => by
      have hT : bind_compiles T = true := by
        simp only [bind_compiles, Bool.and_eq_true] at hw
        exact hw.2
      cases hv : (val : Option T.Val) with
      | none =>
        exact ⟨.sqlite3_bind_null inx, .null, by
          change bind_col_in_db E stmt inx (.unique_ptr T) (none : Option T.Val) = _
          rw [bind_col_in_db, if_pos hw]
          simp [bind_col_in_db_nullptr, sqlite3_bind_null, sqlite3_stmt.issue],
          rfl, by simp [has_sqlite_type, Value.type]⟩
      | some x =>
        rw [hv] at h
        obtain ⟨c, v, hc, hs, hcap⟩ := bind_class_in_capabilities E stmt inx T hT x
          (by simpa [data_present] using h)
        exact ⟨c, v, by
          change bind_col_in_db E stmt inx (.unique_ptr T) (some x : Option T.Val) = _
          rw [bind_col_in_db, if_pos hw]
          exact hc, hs, by simp [has_sqlite_type, hcap]⟩
  | .optional T, hw, val, h => by
      have hT : bind_compiles T = true := by
        simp only [bind_compiles, Bool.and_eq_true] at hw
        exact hw.2
      cases hv : (val : Option T.Val) with
      | none =>
        exact ⟨.sqlite3_bind_null inx, .null, by
          change bind_col_in_db E stmt inx (.optional T) (none : Option T.Val) = _
          rw [bind_col_in_db, if_pos hw]
          simp [bind_col_in_db_nullptr, sqlite3_bind_null, sqlite3_stmt.issue],
          rfl, by simp [has_sqlite_type, Value.type]⟩
      | some x =>
        rw [hv] at h
        obtain ⟨c, v, hc, hs, hcap⟩ := bind_class_in_capabilities E stmt inx T hT x
          (by simpa [data_present] using h)
        exact ⟨c, v, by
          change bind_col_in_db E stmt inx (.optional T) (some x : Option T.Val) = _
          rw [bind_col_in_db, if_pos hw]
          exact hc, hs, by simp [has_sqlite_type, hcap]⟩
  | .variant Args, hw, val, h => by
      obtain ⟨c, v, hc, hs, hcap⟩ := bind_visit_class_in_capabilities E stmt inx Args
        (by simpa [bind_compiles] using hw) val (by simpa [data_present] using h)
      exact ⟨c, v, by rw [bind_col_in_db, if_pos hw, hc], hs,
        by simpa [has_sqlite_type] using hcap⟩
theorem bind_visit_class_in_capabilities (E : Env) (stmt : sqlite3_stmt) (inx : Int) :
    (Args : List HostType) → all_bind_compile Args = true → (val : Alt Args) →
      data_present_alt Args val →
      ∃ (c : BindCall) (v : Value),
        bind_col_in_db_visit E stmt inx Args val = .ok ⟨[c], stmt.respond c⟩
          ∧ c.stored = some v ∧ disjunction Args v.type = true
  | [], _, val, _ => nomatch (val : Empty)
  | T :: Args, hw, val, h => by
      simp only [all_bind_compile, Bool.and_eq_true] at hw
      cases hv : (val : T.Val ⊕ Alt Args) with
      | inl x =>
        rw [hv] at h
        obtain ⟨c, v, hc, hs, hcap⟩ := bind_class_in_capabilities E stmt inx T hw.1 x
          (by simpa [data_present_alt] using h)
        exact ⟨c, v, by
          change bind_col_in_db_visit E stmt inx (T :: Args) (Sum.inl x : T.Val ⊕ Alt Args) = _
          rw [bind_col_in_db_visit, hc], hs, by simp [disjunction, hcap]⟩
      | inr r =>
        rw [hv] at h
        obtain ⟨c, v, hc, hs, hcap⟩ := bind_visit_class_in_capabilities E stmt inx Args hw.2 r
          (by simpa [data_present_alt] using h)
        exact ⟨c, v, by
          change bind_col_in_db_visit E stmt inx (T :: Args) (Sum.inr r : T.Val ⊕ Alt Args) = _
          rw [bind_col_in_db_visit, hc], hs, by simp [disjunction, hcap]⟩
end

/-- C17, the code at the failing input: a default-constructed (empty)
`std::vector` has a null `data()`. The binder passes that pointer to
`sqlite3_bind_blob`, the engine then holds a value of storage class Null, and
Null is not in the capability set of `std::vector`, which is Blob alone. In
`std::variant<std::vector<T>, int>`, whose alternatives have disjoint
capability sets, the bound empty vector therefore does not extract back: no
alternative supports Null and `errors::mismatch` is thrown. The same happens
with a `blob_t` whose pointer is null. -/
theorem empty_vector_binds_outside_capabilities :
    StdVector.WellFormed 4 ⟨[], false⟩
      ∧ bind_col_in_db Env.sample (sqlite3_stmt.sample []) 1 (.vector 4) ⟨[], false⟩
          = .ok ⟨[.sqlite3_bind_blob 1 none 0], SQLITE_OK⟩
      ∧ (BindCall.sqlite3_bind_blob 1 none 0).stored = some .null
      ∧ has_sqlite_type (.vector 4) Value.null.type = false
      ∧ has_sqlite_type (.vector 4) SQLITE_BLOB = true
      ∧ (∀ S : StorageClass,
          ¬ (has_sqlite_type (.vector 4) S = true ∧ has_sqlite_type .int S = true))
      ∧ bind_col_in_db Env.sample (sqlite3_stmt.sample []) 1 (.variant [.vector 4, .int])
          (Sum.inl (⟨[], false⟩ : StdVector)) = .ok ⟨[.sqlite3_bind_blob 1 none 0], SQLITE_OK⟩
      ∧ (get_col_from_db Env.sample (sqlite3_stmt.sample [.null]) 0
          (.variant [.vector 4, .int])).result
          = .error (.thrown (.mismatch "The value is unsupported by this variant." "" 20))
      ∧ bind_col_in_db Env.sample (sqlite3_stmt.sample []) 1 .blob_t (none, 0)
          = .ok ⟨[.sqlite3_bind_blob 1 none 0], SQLITE_OK⟩
      ∧ has_sqlite_type .blob_t Value.null.type = false :=
  ⟨⟨fun h => absurd rfl h, by decide⟩, rfl, rfl, rfl, rfl,
   fun S => by cases S <;> decide, rfl, rfl, rfl, rfl⟩

end sqlite
